import Mathlib

/-!
Verification development for the media-file timestamp classification and
metadata-rewrite pipeline (`MediaMetadataUpdater.py`).

The Python source is shallowly embedded as executable Lean definitions:

* the five naming-convention regular expressions (`pattern_iso_eq`,
  `pattern_iso_us`, `pattern_alt`, `pattern_fb_space`, `pattern_fb_dash`)
  become deterministic matching functions over `List Char`, mirroring the
  backtracking semantics of the Python patterns on the relevant inputs
  (greedy leading `(.*)` is the rightmost separator position whose tail
  matches; all other groups are fixed-width or end at a character that is
  excluded from the following construct, so no further backtracking can
  change the result);
* `datetime.strptime` for the three fixed formats becomes a fixed-width
  field parser with Python's validity checks (the flexible one- or
  two-digit field widths of `_strptime` are forced to two digits on every
  string these formats are applied to, because the captured payloads are
  digit groups followed by a non-digit literal);
* the file system becomes an association list from path to file content
  (size = content length), subprocess invocation of the external tool
  becomes an environment oracle, and exceptions become `Except`.

Modelling scope: file names are treated as newline-free (Python's `.`
does not cross a newline and `$` also matches before a final newline;
no claim depends on names containing newlines), and `\d` / `\s` are the
ASCII digit and whitespace classes.
-/

/-- Numeric value of an ASCII digit character. -/
def charVal (c : Char) : Nat := c.toNat - 48

/-- Python's `\s` class restricted to ASCII: space, tab, newline,
carriage return, vertical tab, form feed. -/
def isPySpace (c : Char) : Bool :=
  c == ' ' || c == '\t' || c == '\n' || c == '\r' || c == '\x0b' || c == '\x0c'

/-- Read exactly `n` ASCII digit characters from the front of a list,
returning the consumed digits and the remainder (regex `\d{n}`). -/
def rdDigits : Nat → List Char → Option (List Char × List Char)
  | 0, l => some ([], l)
  | _ + 1, [] => none
  | n + 1, c :: l =>
    if c.isDigit then
      match rdDigits n l with
      | some (ds, r) => some (c :: ds, r)
      | none => none
    else none

/-- Read one expected literal character from the front of a list. -/
def rdChar (a : Char) : List Char → Option (List Char)
  | [] => none
  | c :: l => if c = a then some l else none

/-- Decimal value of a digit-character list (Python `int` on the digits). -/
def charsToNat (cs : List Char) : Nat :=
  cs.foldl (fun a c => a * 10 + charVal c) 0

/-- Boolean test that `pat` is a leading segment of `l`. -/
def lStarts : List Char → List Char → Bool
  | [], _ => true
  | _ :: _, [] => false
  | a :: as, b :: bs => a == b && lStarts as bs

/-- Boolean substring test (Python's `in` on strings), on char lists. -/
def containsSub (pat : List Char) : List Char → Bool
  | [] => lStarts pat []
  | c :: t => lStarts pat (c :: t) || containsSub pat t

/-- Match the compact timestamp of the ISO patterns,
`\d{4}-\d{2}-\d{2}T\d{6}(?:\.\d{3})?Z`, returning the consumed
characters (the captured group 2) and the remainder.  The optional
millisecond group is decided by the character after the six time digits
(`.` starts the millisecond branch, anything else requires `Z`), exactly
as greedy matching with backtracking would. -/
def rdTs (l : List Char) : Option (List Char × List Char) :=
  match rdDigits 4 l with
  | none => none
  | some (y, l1) =>
  match rdChar '-' l1 with
  | none => none
  | some l2 =>
  match rdDigits 2 l2 with
  | none => none
  | some (mo, l3) =>
  match rdChar '-' l3 with
  | none => none
  | some l4 =>
  match rdDigits 2 l4 with
  | none => none
  | some (d, l5) =>
  match rdChar 'T' l5 with
  | none => none
  | some l6 =>
  match rdDigits 6 l6 with
  | none => none
  | some (t, l7) =>
  match l7 with
  | '.' :: l8 =>
    (match rdDigits 3 l8 with
     | none => none
     | some (f, l9) =>
       match rdChar 'Z' l9 with
       | none => none
       | some l10 =>
         some (y ++ '-' :: mo ++ '-' :: d ++ 'T' :: t ++ '.' :: f ++ ['Z'], l10))
  | _ =>
    match rdChar 'Z' l7 with
    | none => none
    | some l8 => some (y ++ '-' :: mo ++ '-' :: d ++ 'T' :: t ++ ['Z'], l8)

/-- Character class `[_A-Za-z0-9\+\-]` of the optional suffix group. -/
def isSuffixClassChar (c : Char) : Bool :=
  c == '_' || c.isAlpha || c.isDigit || c == '+' || c == '-'

/-- Consume an optional ` (n)` section, regex `(?:\s*\(\d+\))?`: maximal
whitespace run, then a parenthesized nonempty digit group; if the section
is not fully present the position reverts to the start. -/
def dropParen (l : List Char) : List Char :=
  match l.dropWhile isPySpace with
  | '(' :: t =>
    (match t.takeWhile Char.isDigit, t.dropWhile Char.isDigit with
     | [], _ => l
     | _ :: _, ')' :: r2 => r2
     | _ :: _, _ => l)
  | _ => l

/-- Match the part of the ISO patterns after the separator:
timestamp, optional suffix run, optional ` (n)`, then `\.(.+)$`.
Returns the captured timestamp characters. -/
def isoTail (l : List Char) : Option (List Char) :=
  match rdTs l with
  | none => none
  | some (ts, l1) =>
    match dropParen (l1.dropWhile isSuffixClassChar) with
    | '.' :: ext => if ext = [] then none else some ts
    | _ => none

/-- Try the separator-plus-tail match at the current position. -/
def tryIsoAt (sep : List Char) (l : List Char) : Option (List Char) :=
  if lStarts sep l then isoTail (l.drop sep.length) else none

/-- Scan for the rightmost position at which `sep` plus a matching tail
begins.  Rightmost-first is exactly the greedy `^(.*)` group: the regex
engine gives `.*` the longest prefix for which the rest of the pattern
still matches. -/
def isoScan (sep : List Char) : List Char → Option (List Char)
  | [] => tryIsoAt sep []
  | c :: rest =>
    match isoScan sep rest with
    | some ts => some ts
    | none => tryIsoAt sep (c :: rest)

/-- Matcher for
`pattern_iso_eq = ^(.*)=_=(\d{4}-\d{2}-\d{2}T\d{6}(?:\.\d{3})?Z)(?:[_A-Za-z0-9\+\-]+)?(?:\s*\(\d+\))?\.(.+)$`.
Only the captured group 2 (the timestamp) is returned, which is the only
group the program reads. -/
def pattern_iso_eq (fname : String) : Option String :=
  (isoScan ['=', '_', '='] fname.data).map String.mk

/-- Matcher for `pattern_iso_us`: identical grammar with separator `__`. -/
def pattern_iso_us (fname : String) : Option String :=
  (isoScan ['_', '_'] fname.data).map String.mk

/-- Matcher for `pattern_alt = ^(\d{4}-\d{2}-\d{2} \d{2}\.\d{2}\.\d{2}).*`,
returning the captured group 1 (the 19-character prefix). -/
def pattern_alt (fname : String) : Option String :=
  match rdDigits 4 fname.data with
  | none => none
  | some (y, l1) =>
  match rdChar '-' l1 with
  | none => none
  | some l2 =>
  match rdDigits 2 l2 with
  | none => none
  | some (mo, l3) =>
  match rdChar '-' l3 with
  | none => none
  | some l4 =>
  match rdDigits 2 l4 with
  | none => none
  | some (d, l5) =>
  match rdChar ' ' l5 with
  | none => none
  | some l6 =>
  match rdDigits 2 l6 with
  | none => none
  | some (h, l7) =>
  match rdChar '.' l7 with
  | none => none
  | some l8 =>
  match rdDigits 2 l8 with
  | none => none
  | some (mi, l9) =>
  match rdChar '.' l9 with
  | none => none
  | some l10 =>
  match rdDigits 2 l10 with
  | none => none
  | some (s, _) =>
    some (String.mk (y ++ '-' :: mo ++ '-' :: d ++ ' ' :: h ++ '.' :: mi ++ '.' :: s))

/-- Matcher for `pattern_fb_space = ^(\d{2})(\d{2})(\d{2})\s+.*`,
returning the three captured two-digit groups. -/
def pattern_fb_space (fname : String) : Option (String × String × String) :=
  match rdDigits 2 fname.data with
  | none => none
  | some (yy, l1) =>
  match rdDigits 2 l1 with
  | none => none
  | some (mm, l2) =>
  match rdDigits 2 l2 with
  | none => none
  | some (dd, l3) =>
  match l3 with
  | c :: _ => if isPySpace c then some (String.mk yy, String.mk mm, String.mk dd) else none
  | [] => none

/-- Matcher for `pattern_fb_dash = ^(\d{2})(\d{2})(\d{2})-.*`. -/
def pattern_fb_dash (fname : String) : Option (String × String × String) :=
  match rdDigits 2 fname.data with
  | none => none
  | some (yy, l1) =>
  match rdDigits 2 l1 with
  | none => none
  | some (mm, l2) =>
  match rdDigits 2 l2 with
  | none => none
  | some (dd, l3) =>
  match l3 with
  | c :: _ => if c = '-' then some (String.mk yy, String.mk mm, String.mk dd) else none
  | [] => none

/-- A `datetime.datetime` value (naive, as produced by `strptime`);
`microsecond` holds the `%f` field scaled to microseconds. -/
structure PyDateTime where
  year : Nat
  month : Nat
  day : Nat
  hour : Nat
  minute : Nat
  second : Nat
  microsecond : Nat
  deriving DecidableEq, Repr

/-- Gregorian leap-year rule, as used by `datetime`. -/
def isLeapYear (y : Nat) : Bool :=
  y % 4 == 0 && (y % 100 != 0 || y % 400 == 0)

/-- Days in a month of the proleptic Gregorian calendar. -/
def daysInMonth (y m : Nat) : Nat :=
  if m = 2 then (if isLeapYear y then 29 else 28)
  else if m = 4 ∨ m = 6 ∨ m = 9 ∨ m = 11 then 30
  else 31

/-- The `datetime(...)` constructor: validates every field
(`MINYEAR = 1`, `MAXYEAR = 9999`) and raises `ValueError` (here `none`)
on any out-of-range value. -/
def mkDatetime (y mo d h mi s us : Nat) : Option PyDateTime :=
  if 1 ≤ y ∧ y ≤ 9999 ∧ 1 ≤ mo ∧ mo ≤ 12 ∧ 1 ≤ d ∧ d ≤ daysInMonth y mo
      ∧ h ≤ 23 ∧ mi ≤ 59 ∧ s ≤ 59 ∧ us ≤ 999999 then
    some ⟨y, mo, d, h, mi, s, us⟩
  else none

/-- `datetime.strptime(ts, "%Y-%m-%dT%H%M%S.%fZ")`.  On the strings this
program feeds it, the flexible field widths of `_strptime` are forced to
`4-2-2 T 2 2 2 . 3` (each digit group is followed by a non-digit literal,
so the regex must consume whole groups); seconds 60 and 61 pass the
`_strptime` regex but are rejected by the `datetime` constructor, which
collapses to the single validity check here. -/
def strptimeIsoMs (ts : String) : Option PyDateTime :=
  match rdDigits 4 ts.data with
  | none => none
  | some (y, l1) =>
  match rdChar '-' l1 with
  | none => none
  | some l2 =>
  match rdDigits 2 l2 with
  | none => none
  | some (mo, l3) =>
  match rdChar '-' l3 with
  | none => none
  | some l4 =>
  match rdDigits 2 l4 with
  | none => none
  | some (d, l5) =>
  match rdChar 'T' l5 with
  | none => none
  | some l6 =>
  match rdDigits 2 l6 with
  | none => none
  | some (h, l7) =>
  match rdDigits 2 l7 with
  | none => none
  | some (mi, l8) =>
  match rdDigits 2 l8 with
  | none => none
  | some (s, l9) =>
  match rdChar '.' l9 with
  | none => none
  | some l10 =>
  match rdDigits 3 l10 with
  | none => none
  | some (f, l11) =>
  match rdChar 'Z' l11 with
  | none => none
  | some l12 =>
    if l12 = [] then
      mkDatetime (charsToNat y) (charsToNat mo) (charsToNat d)
        (charsToNat h) (charsToNat mi) (charsToNat s) (charsToNat f * 1000)
    else none

/-- `datetime.strptime(ts, "%Y-%m-%dT%H%M%SZ")`. -/
def strptimeIsoSec (ts : String) : Option PyDateTime :=
  match rdDigits 4 ts.data with
  | none => none
  | some (y, l1) =>
  match rdChar '-' l1 with
  | none => none
  | some l2 =>
  match rdDigits 2 l2 with
  | none => none
  | some (mo, l3) =>
  match rdChar '-' l3 with
  | none => none
  | some l4 =>
  match rdDigits 2 l4 with
  | none => none
  | some (d, l5) =>
  match rdChar 'T' l5 with
  | none => none
  | some l6 =>
  match rdDigits 2 l6 with
  | none => none
  | some (h, l7) =>
  match rdDigits 2 l7 with
  | none => none
  | some (mi, l8) =>
  match rdDigits 2 l8 with
  | none => none
  | some (s, l9) =>
  match rdChar 'Z' l9 with
  | none => none
  | some l10 =>
    if l10 = [] then
      mkDatetime (charsToNat y) (charsToNat mo) (charsToNat d)
        (charsToNat h) (charsToNat mi) (charsToNat s) 0
    else none

/-- `datetime.strptime(ts, "%Y-%m-%d %H.%M.%S")`. -/
def strptimeAlt (ts : String) : Option PyDateTime :=
  match rdDigits 4 ts.data with
  | none => none
  | some (y, l1) =>
  match rdChar '-' l1 with
  | none => none
  | some l2 =>
  match rdDigits 2 l2 with
  | none => none
  | some (mo, l3) =>
  match rdChar '-' l3 with
  | none => none
  | some l4 =>
  match rdDigits 2 l4 with
  | none => none
  | some (d, l5) =>
  match rdChar ' ' l5 with
  | none => none
  | some l6 =>
  match rdDigits 2 l6 with
  | none => none
  | some (h, l7) =>
  match rdChar '.' l7 with
  | none => none
  | some l8 =>
  match rdDigits 2 l8 with
  | none => none
  | some (mi, l9) =>
  match rdChar '.' l9 with
  | none => none
  | some l10 =>
  match rdDigits 2 l10 with
  | none => none
  | some (s, l11) =>
    if l11 = [] then
      mkDatetime (charsToNat y) (charsToNat mo) (charsToNat d)
        (charsToNat h) (charsToNat mi) (charsToNat s) 0
    else none

/-- The ISO timestamp parse used for both ISO patterns: millisecond
precision first, then second precision (the program's nested
`try/except ValueError`). -/
def parseIsoTs (ts : String) : Option PyDateTime :=
  match strptimeIsoMs ts with
  | some dt => some dt
  | none => strptimeIsoSec ts

/-- Outcome of the Timestamp Extractor: either a parsed timestamp with
its normalized textual label, or a classification failure reason. -/
inductive ClassifyResult where
  | matched (timestampStr : String) (dt : PyDateTime)
  | failed (reason : String)
  deriving DecidableEq, Repr

/-- The fallback branch body: `year = int("20" + yy)`, `month = int(mm)`,
`day = int(dd)`, `datetime(year, month, day, 0, 0, 0)`, and on success the
label `f"{year}-{mm}-{dd}"`. -/
def fbDatetime (yy mm dd : String) : Option (String × PyDateTime) :=
  let year := charsToNat ('2' :: '0' :: yy.data)
  let month := charsToNat mm.data
  let day := charsToNat dd.data
  match mkDatetime year month day 0 0 0 0 with
  | some dt => some (toString year ++ "-" ++ mm ++ "-" ++ dd, dt)
  | none => none

/-- The classification cascade of `process_file` (lines 105-178),
factored out of the per-file orchestration as the spec's Extractor:
the five matchers in fixed priority order, first structural match wins,
and a parse failure after a structural match is terminal with a reason
naming the matcher. -/
def classify (fname : String) : ClassifyResult :=
  match pattern_iso_eq fname with
  | some ts =>
    (match parseIsoTs ts with
     | some dt => .matched ts dt
     | none => .failed "ISO1 timestamp parse error")
  | none =>
  match pattern_iso_us fname with
  | some ts =>
    (match parseIsoTs ts with
     | some dt => .matched ts dt
     | none => .failed "ISO2 timestamp parse error")
  | none =>
  match pattern_alt fname with
  | some ts =>
    (match strptimeAlt ts with
     | some dt => .matched ts dt
     | none => .failed "ALT timestamp parse error")
  | none =>
  match pattern_fb_space fname with
  | some (yy, mm, dd) =>
    (match fbDatetime yy mm dd with
     | some (lbl, dt) => .matched lbl dt
     | none => .failed "Fallback1 YYMMDD parse error")
  | none =>
  match pattern_fb_dash fname with
  | some (yy, mm, dd) =>
    (match fbDatetime yy mm dd with
     | some (lbl, dt) => .matched lbl dt
     | none => .failed "Fallback2 YYMMDD parse error")
  | none => .failed "No pattern matched"

/-- Year of a classification result, when one was extracted. -/
def extractedYear : ClassifyResult → Option Nat
  | .matched _ dt => some dt.year
  | .failed _ => none

/-- The file system: an association list from absolute path to file
content; a file's size is its content length.  Directories are implicit
(`os.makedirs` failures are injected through the environment). -/
abbrev FS := List (String × String)

/-- Look up a file's content. -/
def fsLookup : FS → String → Option String
  | [], _ => none
  | (q, c) :: rest, p => if q = p then some c else fsLookup rest p

/-- Remove a path from the file system. -/
def fsErase : FS → String → FS
  | [], _ => []
  | (q, c) :: rest, p => if q = p then fsErase rest p else (q, c) :: fsErase rest p

/-- Create or overwrite a file. -/
def fsWrite (fs : FS) (p c : String) : FS := (p, c) :: fsErase fs p

/-- Exceptions that escape a primitive operation (all uncaught by
`process_file`): `os.makedirs` failing, `shutil.copy2` on a missing
source (`FileNotFoundError`), `shutil.copy2` with identical source and
destination (`SameFileError`), and counter-search exhaustion, which is
unreachable on a finite file system and models the nontermination the
Python `while True` loop would exhibit there. -/
inductive PyErr where
  | mkdirFailed (dir : String)
  | srcMissing (path : String)
  | sameFile (path : String)
  | manualSearchExhausted (dir : String)
  deriving DecidableEq, Repr

/-- Quarantine categories of the Router. -/
inductive QCat where
  | riff
  | failed
  | manual
  deriving DecidableEq, Repr

/-- Observable events of one file's processing, in program order:
each `os.path.getsize` attempt, the external tool invocation, and each
completed quarantine move with its category and destination. -/
inductive Ev where
  | sizeRead (path : String)
  | toolRun (path : String)
  | movedTo (cat : QCat) (dst : String)
  deriving DecidableEq, Repr

/-- Effect of the external tool invocation on the file it was given. -/
inductive ExifEffect where
  | keep
  | setContent (c : String)
  | delete
  deriving DecidableEq, Repr

/-- The process environment: the working directory (`os.getcwd()`),
injected `os.path.getsize` failures (an `OSError` on a path whose entry
exists, e.g. a permission race), injected `os.makedirs` failures, and
the external tool as an oracle from (path, formatted timestamp) to
(exit code, stderr text, effect on the file). -/
structure Env where
  cwd : String
  sizeFail : String → Bool
  mkdirFail : String → Bool
  exiftool : String → String → Int × String × ExifEffect

/-- `os.path.join` for one component (POSIX). -/
def pathJoin (a b : String) : String :=
  if b.data.head? = some '/' then b
  else if a = "" then b
  else if a.data.getLast? = some '/' then a ++ b
  else a ++ "/" ++ b

/-- `os.path.basename` (POSIX): the part after the last slash. -/
def baseName (p : String) : String :=
  String.mk ((p.data.reverse.takeWhile (fun c => c ≠ '/')).reverse)

/-- `os.path.dirname` (POSIX): the part before the last slash, with
trailing slashes stripped unless the result is all slashes. -/
def dirName (p : String) : String :=
  let revHead := p.data.reverse.dropWhile (fun c => c ≠ '/')
  if revHead = [] then ""
  else if revHead.all (fun c => c = '/') then String.mk revHead.reverse
  else String.mk ((revHead.dropWhile (fun c => c = '/')).reverse)

/-- `os.path.splitext` on a bare file name: split at the last dot,
unless every character before that dot is itself a dot. -/
def splitext (b : String) : String × String :=
  let cs := b.data
  let revTail := cs.reverse.takeWhile (fun c => c ≠ '.')
  if revTail.length = cs.length then (b, "")
  else
    let stemLen := cs.length - revTail.length - 1
    if (cs.take stemLen).all (fun c => c = '.') then (b, "")
    else (String.mk (cs.take stemLen), String.mk (cs.drop stemLen))

/-- `safe_move(src, dst_dir)`: `os.makedirs(dst_dir, exist_ok=True)`,
then `shutil.copy2` to `dst_dir/basename(src)` (silently overwriting an
existing file) and `os.remove(src)`.  Any raised error escapes. -/
def safe_move (env : Env) (fs : FS) (src dstDir : String) :
    Except PyErr (String × FS) :=
  if env.mkdirFail dstDir then .error (.mkdirFailed dstDir)
  else
    let target := pathJoin dstDir (baseName src)
    match fsLookup fs src with
    | none => .error (.srcMissing src)
    | some c =>
      if target = src then .error (.sameFile src)
      else .ok (target, fsErase (fsWrite fs target c) src)

/-- `move_to_riff`: `safe_move` into the fixed subtree `{cwd}/riff`. -/
def move_to_riff (env : Env) (fs : FS) (fpath : String) :
    Except PyErr (String × FS) × List Ev :=
  match safe_move env fs fpath (pathJoin env.cwd "riff") with
  | .ok (t, fs') => (.ok (t, fs'), [.movedTo .riff t])
  | .error e => (.error e, [])

/-- `move_to_failed`: `safe_move` into the fixed subtree `{cwd}/failed`. -/
def move_to_failed (env : Env) (fs : FS) (fpath : String) :
    Except PyErr (String × FS) × List Ev :=
  match safe_move env fs fpath (pathJoin env.cwd "failed") with
  | .ok (t, fs') => (.ok (t, fs'), [.movedTo .failed t])
  | .error e => (.error e, [])

/-- Candidate collision name `f"{name} ({counter}){ext}"` inside the
manual directory. -/
def manualCandidate (dir stem ext : String) (k : Nat) : String :=
  pathJoin dir (stem ++ " (" ++ toString k ++ ")" ++ ext)

/-- The `while True` counter search of `move_to_manual`, with explicit
fuel.  The caller passes fuel `fs.length + 1`: the candidate names for
distinct counters are distinct paths, so on a finite file system one of
the first `fs.length + 1` candidates is always unused and the fuel can
never run out. -/
def findManualTarget (fs : FS) (dir stem ext : String) : Nat → Nat → Option String
  | 0, _ => none
  | fuel + 1, k =>
    let cand := manualCandidate dir stem ext k
    if fsLookup fs cand = none then some cand
    else findManualTarget fs dir stem ext fuel (k + 1)

/-- `move_to_manual(fpath)`: destination directory is the `manual`
subdirectory of the source file's own parent; on collision, counter
names `name (1).ext`, `name (2).ext`, ... are tried from 1 upward until
an unused one is found; then `shutil.copy2` and `os.remove(fpath)`. -/
def move_to_manual (env : Env) (fs : FS) (fpath : String) :
    Except PyErr (String × FS) × List Ev :=
  let manualDir := pathJoin (dirName fpath) "manual"
  if env.mkdirFail manualDir then (.error (.mkdirFailed manualDir), [])
  else
    let base := baseName fpath
    let target0 := pathJoin manualDir base
    let targetOpt :=
      if fsLookup fs target0 = none then some target0
      else
        let se := splitext base
        findManualTarget fs manualDir se.1 se.2 (fs.length + 1) 1
    match targetOpt with
    | none => (.error (.manualSearchExhausted manualDir), [])
    | some target =>
      match fsLookup fs fpath with
      | none => (.error (.srcMissing fpath), [])
      | some c =>
        if target = fpath then (.error (.sameFile fpath), [])
        else (.ok (target, fsErase (fsWrite fs target c) fpath), [.movedTo .manual target])

/-- `os.path.getsize`: `none` models a raised `OSError` (missing file or
injected failure). -/
def readSize (env : Env) (fs : FS) (p : String) : Option Nat :=
  if env.sizeFail p then none
  else (fsLookup fs p).map String.length

/-- Zero-padded two-digit field of `strftime`. -/
def pad2 (n : Nat) : String :=
  if n < 10 then "0" ++ toString n else toString n

/-- Zero-padded four-digit year field of `strftime`. -/
def pad4 (n : Nat) : String :=
  if n < 10 then "000" ++ toString n
  else if n < 100 then "00" ++ toString n
  else if n < 1000 then "0" ++ toString n
  else toString n

/-- `dt.strftime("%Y:%m:%d %H:%M:%S")`: the colon-delimited timestamp
handed to the external tool. -/
def exifFormat (dt : PyDateTime) : String :=
  pad4 dt.year ++ ":" ++ pad2 dt.month ++ ":" ++ pad2 dt.day ++ " " ++
    pad2 dt.hour ++ ":" ++ pad2 dt.minute ++ ":" ++ pad2 dt.second

/-- Python `str.strip()` restricted to ASCII whitespace. -/
def pyStrip (s : String) : String :=
  String.mk (((s.data.dropWhile isPySpace).reverse.dropWhile isPySpace).reverse)

/-- The external tool's container-format marker searched for in stderr. -/
def riffMarker : String := "Not a valid JPG (looks more like a RIFF)"

/-- Per-file result tuple `(fname, info, status, sizes)` returned to the
driver; `info` is the timestamp label on success or the diagnostic text
on failure, `status` is the Python status string. -/
structure Outcome where
  fname : String
  info : Option String
  status : String
  sizes : Option (Nat × Nat)
  deriving DecidableEq, Repr

/-- `process_file(fpath)`: the per-file orchestration.  Returns the
result tuple (or the uncaught exception), the file system afterwards,
and the event trace.  Only the two `os.path.getsize` calls and the
`strptime` calls are guarded by `try/except` in the source; everything
else propagates. -/
def process_file (env : Env) (fs : FS) (fpath : String) :
    Except PyErr Outcome × FS × List Ev :=
  let fname := baseName fpath
  match fsLookup fs fpath with
  | none => (.ok ⟨fname, none, "skip", none⟩, fs, [])
  | some _ =>
    match readSize env fs fpath with
    | none => (.ok ⟨fname, none, "error_size_before", none⟩, fs, [.sizeRead fpath])
    | some sizeBefore =>
      match classify fname with
      | .failed reason =>
        (match move_to_failed env fs fpath with
         | (.ok (moved, fs'), evs) =>
           (.ok ⟨fname, some (reason ++ " → moved to " ++ moved), "notmatch",
              some (sizeBefore, sizeBefore)⟩, fs', .sizeRead fpath :: evs)
         | (.error e, evs) => (.error e, fs, .sizeRead fpath :: evs))
      | .matched tsStr dt =>
        let r := env.exiftool fpath (exifFormat dt)
        let fs1 := match r.2.2 with
          | .keep => fs
          | .setContent c => fsWrite fs fpath c
          | .delete => fsErase fs fpath
        let sizeAfter := (readSize env fs1 fpath).getD sizeBefore
        let evs0 := [Ev.sizeRead fpath, Ev.toolRun fpath, Ev.sizeRead fpath]
        if r.1 = 0 then
          (.ok ⟨fname, some tsStr, "match", some (sizeBefore, sizeAfter)⟩, fs1, evs0)
        else
          let err := pyStrip r.2.1
          if containsSub riffMarker.data err.data then
            match move_to_riff env fs1 fpath with
            | (.ok (moved, fs2), evs) =>
              (.ok ⟨fname, some ("RIFF detected → moved to " ++ moved), "notmatch",
                 some (sizeBefore, sizeAfter)⟩, fs2, evs0 ++ evs)
            | (.error e, evs) => (.error e, fs1, evs0 ++ evs)
          else
            match move_to_failed env fs1 fpath with
            | (.ok (moved, fs2), evs) =>
              (.ok ⟨fname, some ("Exiftool error: " ++ err ++ " → moved to " ++ moved),
                 "notmatch", some (sizeBefore, sizeAfter)⟩, fs2, evs0 ++ evs)
            | (.error e, evs) => (.error e, fs1, evs0 ++ evs)

/-- The run-level counters. -/
structure Summary where
  total : Nat
  matched : Nat
  notmatch : Nat
  skipped : Nat
  increased : Nat
  decreased : Nat
  deriving DecidableEq, Repr

/-- The three log files, as line lists. -/
structure Logs where
  matchLog : List String
  notmatchLog : List String
  changedLog : List String
  deriving DecidableEq, Repr

/-- Python's rendering of an optional string in an f-string
(`None` prints as `"None"`). -/
def pyShowOpt : Option String → String
  | some s => s
  | none => "None"

/-- One iteration of the driver's collection loop for a successfully
retrieved result tuple: log line, counter update, then the size-delta
section. -/
def collectStep (o : Outcome) (logs : Logs) (s : Summary) : Logs × Summary :=
  let base :=
    if o.status = "match" then
      ({ logs with matchLog := logs.matchLog ++ [o.fname ++ " --> " ++ pyShowOpt o.info] },
       { s with matched := s.matched + 1 })
    else if o.status = "notmatch" then
      ({ logs with notmatchLog := logs.notmatchLog ++ [o.fname ++ " --> " ++ pyShowOpt o.info] },
       { s with notmatch := s.notmatch + 1 })
    else if o.status = "skip" then
      (logs, { s with skipped := s.skipped + 1 })
    else
      ({ logs with notmatchLog := logs.notmatchLog ++ [o.fname ++ " --> Unknown error"] },
       { s with notmatch := s.notmatch + 1 })
  match o.sizes with
  | none => base
  | some (sb, sa) =>
    if sb < sa then
      ({ base.1 with changedLog := base.1.changedLog ++
          [o.fname ++ " --> size increased (" ++ toString sb ++ " → " ++ toString sa ++ " bytes)"] },
       { base.2 with increased := base.2.increased + 1 })
    else if sa < sb then
      ({ base.1 with changedLog := base.1.changedLog ++
          [o.fname ++ " --> size decreased (" ++ toString sb ++ " → " ++ toString sa ++ " bytes)"] },
       { base.2 with decreased := base.2.decreased + 1 })
    else base

/-- The driver's collection loop over retrieved results.  Retrieving a
result via `future.result()` re-raises the worker's exception in the
driver, which terminates the loop (and the run) at that point: results
after the first raised exception are never folded in. -/
def collectResults : List (Except PyErr Outcome) → Logs → Summary →
    Except PyErr Unit × Logs × Summary
  | [], logs, s => (.ok (), logs, s)
  | .error e :: _, logs, s => (.error e, logs, s)
  | .ok o :: rest, logs, s =>
    let ls := collectStep o logs s
    collectResults rest ls.1 ls.2

/-- The worker pool: each file's `process_file` runs to completion
independently; results are listed in completion order (modelled here as
submission order, with the file system threaded through). -/
def runWorkers (env : Env) : FS → List String → List (Except PyErr Outcome) × FS × List Ev
  | fs, [] => ([], fs, [])
  | fs, p :: rest =>
    let r := process_file env fs p
    let rs := runWorkers env r.2.1 rest
    (r.1 :: rs.1, rs.2.1, r.2.2 ++ rs.2.2)

/-- `folders = r"/data"` split on commas. -/
def folder_list : List String := ["/data"]

/-- The driver's environment: the worker environment plus the directory
oracle (`os.path.isdir`, `os.listdir`), the initial file system, and the
prior content of the not-matched log (appended to during enumeration,
truncated when the log is reopened for the main run). -/
structure DriverEnv where
  env : Env
  isdir : String → Bool
  listdir : String → List String
  fs0 : FS
  notmatch0 : List String

/-- Enumeration of one input folder's entries, in order: a directory
entry is logged and counted as skipped, any other entry is collected
for dispatch.  No recursion into subdirectories. -/
def enumEntries (d : DriverEnv) (folder : String) :
    List String → List String × Nat × List String
  | [] => ([], 0, [])
  | entry :: rest =>
    let acc := enumEntries d folder rest
    let fpath := pathJoin folder entry
    if d.isdir fpath then
      (acc.1, acc.2.1 + 1, (entry ++ " --> skipped directory") :: acc.2.2)
    else
      (fpath :: acc.1, acc.2.1, acc.2.2)

/-- Enumeration over the configured folder list, skipping non-directory
folders, returning (files to dispatch, skipped-directory count,
not-matched log lines appended during enumeration). -/
def enumFolders (d : DriverEnv) : List String → List String × Nat × List String
  | [] => ([], 0, [])
  | folder :: rest =>
    let here := if d.isdir folder then enumEntries d folder (d.listdir folder)
                else ([], 0, [])
    let acc := enumFolders d rest
    (here.1 ++ acc.1, here.2.1 + acc.2.1, here.2.2 ++ acc.2.2)

/-- The observable result of one `main()` run. -/
structure RunResult where
  allFiles : List String
  notmatchAfterEnum : List String
  summaryAtDispatch : Summary
  outcome : Except PyErr Unit
  logs : Logs
  summary : Summary
  fsFinal : FS
  events : List Ev

/-- `main()`: enumerate (appending skipped-directory lines to the
not-matched log), set the total, reopen all three logs in write mode
(truncating them, including the just-appended not-matched lines),
dispatch, collect as completed. -/
def runMain (d : DriverEnv) : RunResult :=
  let enum := enumFolders d folder_list
  let files := enum.1
  let notmatchEnum := d.notmatch0 ++ enum.2.2
  let s0 : Summary := ⟨files.length, 0, 0, enum.2.1, 0, 0⟩
  let logs0 : Logs := ⟨[], [], []⟩
  let work := runWorkers d.env d.fs0 files
  let col := collectResults work.1 logs0 s0
  ⟨files, notmatchEnum, s0, col.1, col.2.1, col.2.2, work.2.1, work.2.2⟩

/-- Observation helper for the event trace: does any `sizeRead` event
occur after some completed move?  (Used to state where in program order
the size-after value is read.) -/
def sizeReadAfterMove : List Ev → Bool
  | [] => false
  | .movedTo _ _ :: rest =>
    rest.any (fun e => match e with | .sizeRead _ => true | _ => false)
      || sizeReadAfterMove rest
  | _ :: rest => sizeReadAfterMove rest

/-! ### Concrete test fixtures

Environments used by concrete runs: the oracle fields make `Env` and
`DriverEnv` function-valued, so closed instances are fixed here for use
in witnesses and counterexamples. -/

/-- No injected failures; the tool always succeeds and leaves the file
unchanged. -/
def envOk : Env := ⟨"/run", fun _ => false, fun _ => false, fun _ _ => (0, "", .keep)⟩

/-- The tool fails with the container-format marker inside stderr
(surrounded by other text and whitespace). -/
def envRiff : Env := ⟨"/run", fun _ => false, fun _ => false,
  fun _ _ => (1, "  Error: Not a valid JPG (looks more like a RIFF) - x.jpg ", .keep)⟩

/-- The tool fails with an unrelated stderr text. -/
def envToolErr : Env := ⟨"/run", fun _ => false, fun _ => false,
  fun _ _ => (1, "Unknown file type", .keep)⟩

/-- The tool succeeds but stderr carries the marker anyway (exit code 0
wins regardless of stderr). -/
def envOkNoisy : Env := ⟨"/run", fun _ => false, fun _ => false,
  fun _ _ => (0, "Not a valid JPG (looks more like a RIFF)", .keep)⟩

/-- The tool reports success but the file vanishes (size-after read
raises, so size-before is reused). -/
def envDel : Env := ⟨"/run", fun _ => false, fun _ => false, fun _ _ => (0, "", .delete)⟩

/-- The tool rewrites the file, growing it. -/
def envGrow : Env := ⟨"/run", fun _ => false, fun _ => false,
  fun _ _ => (0, "", .setContent "larger content")⟩

/-- Creating the failed-quarantine directory raises `OSError`. -/
def envMkdirFail : Env :=
  ⟨"/run", fun _ => false, fun d => d == "/run/failed", fun _ _ => (0, "", .keep)⟩

/-- Reading any size raises `OSError`. -/
def envSizeFail : Env := ⟨"/run", fun _ => true, fun _ => false, fun _ _ => (0, "", .keep)⟩

/-- One regular file whose size read fails. -/
def denvSizeFail : DriverEnv :=
  ⟨envSizeFail, fun p => p == "/data", fun _ => ["a.jpg"], [("/data/a.jpg", "xy")], []⟩

/-- Two regular files: the first fails classification and its quarantine
move raises; the second would classify fine. -/
def denvAbort : DriverEnv :=
  ⟨envMkdirFail, fun p => p == "/data",
   fun _ => ["bad.txt", "alice=_=2024-03-05T090000Z.jpg"],
   [("/data/bad.txt", "b"), ("/data/alice=_=2024-03-05T090000Z.jpg", "img")], []⟩

/-- A file plus a subdirectory, with a stale not-matched log line. -/
def denvDirs : DriverEnv :=
  ⟨envOk, fun p => p == "/data" || p == "/data/archive",
   fun _ => ["alice=_=2024-03-05T090000Z.jpg", "archive"],
   [("/data/alice=_=2024-03-05T090000Z.jpg", "img")], ["stale line"]⟩

/-! ## Theorems -/

/-- C2: the five matchers are evaluated in the fixed priority order
ISO-equals, ISO-underscore, Alternate, Fallback-space, Fallback-dash;
the first matcher whose structure matches determines the outcome alone
(the implications place no condition on any later matcher), a parse
failure after a structural match is terminal with a reason naming the
matcher, and a name matched by no matcher is a classification failure.
The closing conjuncts exhibit this on adversarial names: a name with
ISO-equals structure and an out-of-range month (13) is an ISO1 parse
failure even though the Fallback-dash matcher would structurally match
it, and a name matching both ISO grammars selects ISO-equals. -/
theorem classify_priority_order :
    (∀ fname ts dt, pattern_iso_eq fname = some ts → parseIsoTs ts = some dt →
      classify fname = .matched ts dt) ∧
    (∀ fname ts, pattern_iso_eq fname = some ts → parseIsoTs ts = none →
      classify fname = .failed "ISO1 timestamp parse error") ∧
    (∀ fname ts dt, pattern_iso_eq fname = none → pattern_iso_us fname = some ts →
      parseIsoTs ts = some dt → classify fname = .matched ts dt) ∧
    (∀ fname ts, pattern_iso_eq fname = none → pattern_iso_us fname = some ts →
      parseIsoTs ts = none → classify fname = .failed "ISO2 timestamp parse error") ∧
    (∀ fname ts dt, pattern_iso_eq fname = none → pattern_iso_us fname = none →
      pattern_alt fname = some ts → strptimeAlt ts = some dt →
      classify fname = .matched ts dt) ∧
    (∀ fname ts, pattern_iso_eq fname = none → pattern_iso_us fname = none →
      pattern_alt fname = some ts → strptimeAlt ts = none →
      classify fname = .failed "ALT timestamp parse error") ∧
    (∀ fname yy mm dd lbl dt, pattern_iso_eq fname = none → pattern_iso_us fname = none →
      pattern_alt fname = none → pattern_fb_space fname = some (yy, mm, dd) →
      fbDatetime yy mm dd = some (lbl, dt) → classify fname = .matched lbl dt) ∧
    (∀ fname yy mm dd, pattern_iso_eq fname = none → pattern_iso_us fname = none →
      pattern_alt fname = none → pattern_fb_space fname = some (yy, mm, dd) →
      fbDatetime yy mm dd = none →
      classify fname = .failed "Fallback1 YYMMDD parse error") ∧
    (∀ fname yy mm dd lbl dt, pattern_iso_eq fname = none → pattern_iso_us fname = none →
      pattern_alt fname = none → pattern_fb_space fname = none →
      pattern_fb_dash fname = some (yy, mm, dd) →
      fbDatetime yy mm dd = some (lbl, dt) → classify fname = .matched lbl dt) ∧
    (∀ fname yy mm dd, pattern_iso_eq fname = none → pattern_iso_us fname = none →
      pattern_alt fname = none → pattern_fb_space fname = none →
      pattern_fb_dash fname = some (yy, mm, dd) → fbDatetime yy mm dd = none →
      classify fname = .failed "Fallback2 YYMMDD parse error") ∧
    (∀ fname, pattern_iso_eq fname = none → pattern_iso_us fname = none →
      pattern_alt fname = none → pattern_fb_space fname = none →
      pattern_fb_dash fname = none →
      classify fname = .failed "No pattern matched") ∧
    (classify "991231-x=_=2024-13-05T090000Z.jpg" =
      .failed "ISO1 timestamp parse error" ∧
     pattern_fb_dash "991231-x=_=2024-13-05T090000Z.jpg" = some ("99", "12", "31")) ∧
    (pattern_iso_eq "a=_=2024-03-05T090000Z.x__2024-04-06T100000Z.jpg" =
      some "2024-03-05T090000Z" ∧
     pattern_iso_us "a=_=2024-03-05T090000Z.x__2024-04-06T100000Z.jpg" =
      some "2024-04-06T100000Z" ∧
     classify "a=_=2024-03-05T090000Z.x__2024-04-06T100000Z.jpg" =
      .matched "2024-03-05T090000Z" ⟨2024, 3, 5, 9, 0, 0, 0⟩) := by
  refine ⟨?_, ?_, ?_, ?_, ?_, ?_, ?_, ?_, ?_, ?_, ?_, ⟨?_, ?_⟩, ⟨?_, ?_, ?_⟩⟩
  · intro fname ts dt h1 h2; simp [classify, h1, h2]
  · intro fname ts h1 h2; simp [classify, h1, h2]
  · intro fname ts dt h1 h2 h3; simp [classify, h1, h2, h3]
  · intro fname ts h1 h2 h3; simp [classify, h1, h2, h3]
  · intro fname ts dt h1 h2 h3 h4; simp [classify, h1, h2, h3, h4]
  · intro fname ts h1 h2 h3 h4; simp [classify, h1, h2, h3, h4]
  · intro fname yy mm dd lbl dt h1 h2 h3 h4 h5; simp [classify, h1, h2, h3, h4, h5]
  · intro fname yy mm dd h1 h2 h3 h4 h5; simp [classify, h1, h2, h3, h4, h5]
  · intro fname yy mm dd lbl dt h1 h2 h3 h4 h5 h6; simp [classify, h1, h2, h3, h4, h5, h6]
  · intro fname yy mm dd h1 h2 h3 h4 h5 h6; simp [classify, h1, h2, h3, h4, h5, h6]
  · intro fname h1 h2 h3 h4 h5; simp [classify, h1, h2, h3, h4, h5]
  · decide
  · decide
  · decide
  · decide
  · decide

/-- Witness for `classify_priority_order`: the no-match implication at
the concrete name `a.txt`. -/
theorem classify_priority_order_witness :
    classify "a.txt" = .failed "No pattern matched" :=
  classify_priority_order.2.2.2.2.2.2.2.2.2.2.1 "a.txt"
    (by decide) (by decide) (by decide) (by decide) (by decide)

/-- An ASCII digit has value at most 9. -/
theorem charVal_le_nine {c : Char} (h : c.isDigit = true) : charVal c ≤ 9 := by
  simp only [Char.isDigit, Bool.and_eq_true, decide_eq_true_eq] at h
  have h1 : 48 ≤ c.toNat := h.1
  have h2 : c.toNat ≤ 57 := h.2
  simp only [charVal]
  omega

/-- An ASCII digit is not a literal separator character. -/
theorem digit_ne {c a : Char} (h : c.isDigit = true) (ha : a.isDigit = false) : c ≠ a := by
  intro e
  rw [e, ha] at h
  exact Bool.false_ne_true h

/-- Accumulator bound for the decimal fold. -/
theorem charsToNat_fold_lt (ds : List Char) (h : ∀ c ∈ ds, c.isDigit = true) :
    ∀ acc : Nat, ds.foldl (fun a c => a * 10 + charVal c) acc < (acc + 1) * 10 ^ ds.length := by
  induction ds with
  | nil => intro acc; simp
  | cons c t ih =>
    intro acc
    have hc : charVal c ≤ 9 := charVal_le_nine (h c (List.mem_cons_self c t))
    have ht := ih (fun x hx => h x (List.mem_cons_of_mem c hx)) (acc * 10 + charVal c)
    have hstep : (acc * 10 + charVal c + 1) * 10 ^ t.length ≤ (acc + 1) * 10 ^ (t.length + 1) := by
      have : acc * 10 + charVal c + 1 ≤ (acc + 1) * 10 := by omega
      calc (acc * 10 + charVal c + 1) * 10 ^ t.length
          ≤ (acc + 1) * 10 * 10 ^ t.length := Nat.mul_le_mul_right _ this
        _ = (acc + 1) * 10 ^ (t.length + 1) := by ring
    have : (c :: t).foldl (fun a x => a * 10 + charVal x) acc
        = t.foldl (fun a x => a * 10 + charVal x) (acc * 10 + charVal c) := by
      simp [List.foldl]
    rw [this]
    exact lt_of_lt_of_le ht hstep

/-- Decimal value of a digit list is below `10 ^ length`. -/
theorem charsToNat_lt (ds : List Char) (h : ∀ c ∈ ds, c.isDigit = true) :
    charsToNat ds < 10 ^ ds.length := by
  simpa [charsToNat] using charsToNat_fold_lt ds h 0

/-- Prefixing the digits `20` multiplies into a fixed 2000 offset. -/
theorem charsToNat_twenty (a b : Char) :
    charsToNat ('2' :: '0' :: [a, b]) = 2000 + charsToNat [a, b] := by
  simp [charsToNat, charVal]
  omega

/-- A match found in the tail is preserved by any prefix: the scan
prefers the rightmost matching separator position. -/
theorem isoScan_append_some (sep : List Char) (pre t ts : List Char)
    (h : isoScan sep t = some ts) : isoScan sep (pre ++ t) = some ts := by
  induction pre with
  | nil => simpa using h
  | cons c p ih => simp [isoScan, ih]

/-- A list that nowhere contains the separator's first character cannot
match at any position. -/
theorem isoScan_none_of_not_mem (c0 : Char) (s0 t : List Char) (h : c0 ∉ t) :
    isoScan (c0 :: s0) t = none := by
  induction t with
  | nil => simp [isoScan, tryIsoAt, lStarts]
  | cons c r ih =>
    have hne : (c0 == c) = false := by
      have : c0 ≠ c := fun e => h (e ▸ List.mem_cons_self c r)
      simpa using this
    have hr : c0 ∉ r := fun hm => h (List.mem_cons_of_mem c hm)
    simp [isoScan, ih hr, tryIsoAt, lStarts, hne]

/-- Head-position match for the `=_=` separator: if the part after the
separator matches the tail grammar and contains no further `=`, the scan
finds exactly this separator (no position further right can start one). -/
theorem isoScan_cons (sep : List Char) (c : Char) (rest : List Char) :
    isoScan sep (c :: rest) = match isoScan sep rest with
      | some ts => some ts
      | none => tryIsoAt sep (c :: rest) := rfl

/-- Head-position match for the `=_=` separator: if the part after the
separator matches the tail grammar and contains no further `=`, the scan
finds exactly this separator (no position further right can start one). -/
theorem isoScan_eq_head (t ts : List Char) (d : Char) (r : List Char)
    (hts : isoTail t = some ts) (hnm : '=' ∉ t) (ht : t = d :: r) (hd : d.isDigit = true) :
    isoScan ['=', '_', '='] ('=' :: '_' :: '=' :: t) = some ts := by
  have h0 : isoScan ['=', '_', '='] t = none := isoScan_none_of_not_mem '=' ['_', '='] t hnm
  have hdu : ('_' == d) = false := by
    have : d ≠ '_' := digit_ne hd (by decide)
    simp [this.symm]
  have h1 : tryIsoAt ['=', '_', '='] ('=' :: t) = none := by
    subst ht
    simp [tryIsoAt, lStarts, hdu]
  have h2 : isoScan ['=', '_', '='] ('=' :: t) = none := by
    rw [isoScan_cons, h0]
    exact h1
  have h3 : tryIsoAt ['=', '_', '='] ('_' :: '=' :: t) = none := by
    simp [tryIsoAt, lStarts]
  have h4 : isoScan ['=', '_', '='] ('_' :: '=' :: t) = none := by
    rw [isoScan_cons, h2]
    exact h3
  have h5 : tryIsoAt ['=', '_', '='] ('=' :: '_' :: '=' :: t) = some ts := by
    simp [tryIsoAt, lStarts, hts]
  rw [isoScan_cons, h4]
  exact h5

/-- Second-precision tail: timestamp immediately followed by the dot and
a nonempty extension matches the tail grammar with the timestamp as the
captured group. -/
theorem isoTail_sec (y1 y2 y3 y4 o1 o2 d1 d2 p1 p2 i1 i2 s1 s2 : Char) (ext : List Char)
    (hy1 : y1.isDigit = true) (hy2 : y2.isDigit = true)
    (hy3 : y3.isDigit = true) (hy4 : y4.isDigit = true)
    (ho1 : o1.isDigit = true) (ho2 : o2.isDigit = true)
    (hd1 : d1.isDigit = true) (hd2 : d2.isDigit = true)
    (hp1 : p1.isDigit = true) (hp2 : p2.isDigit = true)
    (hi1 : i1.isDigit = true) (hi2 : i2.isDigit = true)
    (hs1 : s1.isDigit = true) (hs2 : s2.isDigit = true)
    (hext : ext ≠ []) :
    isoTail (y1 :: y2 :: y3 :: y4 :: '-' :: o1 :: o2 :: '-' :: d1 :: d2 ::
             'T' :: p1 :: p2 :: i1 :: i2 :: s1 :: s2 :: 'Z' :: '.' :: ext)
      = some [y1, y2, y3, y4, '-', o1, o2, '-', d1, d2, 'T', p1, p2, i1, i2, s1, s2, 'Z'] := by
  simp [isoTail, rdTs, rdDigits, rdChar, dropParen, List.dropWhile, isSuffixClassChar,
    isPySpace, hy1, hy2, hy3, hy4, ho1, ho2, hd1, hd2, hp1, hp2, hi1, hi2, hs1, hs2, hext]

/-- Millisecond-precision tail, analogously. -/
theorem isoTail_ms (y1 y2 y3 y4 o1 o2 d1 d2 p1 p2 i1 i2 s1 s2 f1 f2 f3 : Char)
    (ext : List Char)
    (hy1 : y1.isDigit = true) (hy2 : y2.isDigit = true)
    (hy3 : y3.isDigit = true) (hy4 : y4.isDigit = true)
    (ho1 : o1.isDigit = true) (ho2 : o2.isDigit = true)
    (hd1 : d1.isDigit = true) (hd2 : d2.isDigit = true)
    (hp1 : p1.isDigit = true) (hp2 : p2.isDigit = true)
    (hi1 : i1.isDigit = true) (hi2 : i2.isDigit = true)
    (hs1 : s1.isDigit = true) (hs2 : s2.isDigit = true)
    (hf1 : f1.isDigit = true) (hf2 : f2.isDigit = true) (hf3 : f3.isDigit = true)
    (hext : ext ≠ []) :
    isoTail (y1 :: y2 :: y3 :: y4 :: '-' :: o1 :: o2 :: '-' :: d1 :: d2 ::
             'T' :: p1 :: p2 :: i1 :: i2 :: s1 :: s2 :: '.' :: f1 :: f2 :: f3 :: 'Z' :: '.' :: ext)
      = some [y1, y2, y3, y4, '-', o1, o2, '-', d1, d2, 'T', p1, p2, i1, i2, s1, s2,
              '.', f1, f2, f3, 'Z'] := by
  simp [isoTail, rdTs, rdDigits, rdChar, dropParen, List.dropWhile, isSuffixClassChar,
    isPySpace, hy1, hy2, hy3, hy4, ho1, ho2, hd1, hd2, hp1, hp2, hi1, hi2, hs1, hs2,
    hf1, hf2, hf3, hext]

theorem string_data_mk (l : List Char) : (String.mk l).data = l := rfl

theorem string_data_append (a b : String) : (a ++ b).data = a.data ++ b.data := rfl

/-- The millisecond format rejects a second-precision payload: after the
six time digits it requires a dot, but a `Z` follows. -/
theorem strptimeIsoMs_sec_none (y1 y2 y3 y4 o1 o2 d1 d2 p1 p2 i1 i2 s1 s2 : Char)
    (hy1 : y1.isDigit = true) (hy2 : y2.isDigit = true)
    (hy3 : y3.isDigit = true) (hy4 : y4.isDigit = true)
    (ho1 : o1.isDigit = true) (ho2 : o2.isDigit = true)
    (hd1 : d1.isDigit = true) (hd2 : d2.isDigit = true)
    (hp1 : p1.isDigit = true) (hp2 : p2.isDigit = true)
    (hi1 : i1.isDigit = true) (hi2 : i2.isDigit = true)
    (hs1 : s1.isDigit = true) (hs2 : s2.isDigit = true) :
    strptimeIsoMs (String.mk [y1, y2, y3, y4, '-', o1, o2, '-', d1, d2,
      'T', p1, p2, i1, i2, s1, s2, 'Z']) = none := by
  simp [strptimeIsoMs, string_data_mk, rdDigits, rdChar,
    hy1, hy2, hy3, hy4, ho1, ho2, hd1, hd2, hp1, hp2, hi1, hi2, hs1, hs2]

/-- The second-precision format parses a valid second-precision payload
to the datetime of its literal digit fields. -/
theorem strptimeIsoSec_some (y1 y2 y3 y4 o1 o2 d1 d2 p1 p2 i1 i2 s1 s2 : Char)
    (hy1 : y1.isDigit = true) (hy2 : y2.isDigit = true)
    (hy3 : y3.isDigit = true) (hy4 : y4.isDigit = true)
    (ho1 : o1.isDigit = true) (ho2 : o2.isDigit = true)
    (hd1 : d1.isDigit = true) (hd2 : d2.isDigit = true)
    (hp1 : p1.isDigit = true) (hp2 : p2.isDigit = true)
    (hi1 : i1.isDigit = true) (hi2 : i2.isDigit = true)
    (hs1 : s1.isDigit = true) (hs2 : s2.isDigit = true)
    (hy : 1 ≤ charsToNat [y1, y2, y3, y4])
    (hoa : 1 ≤ charsToNat [o1, o2]) (hob : charsToNat [o1, o2] ≤ 12)
    (hda : 1 ≤ charsToNat [d1, d2])
    (hdb : charsToNat [d1, d2] ≤ daysInMonth (charsToNat [y1, y2, y3, y4]) (charsToNat [o1, o2]))
    (hp : charsToNat [p1, p2] ≤ 23) (hi : charsToNat [i1, i2] ≤ 59)
    (hs : charsToNat [s1, s2] ≤ 59) :
    strptimeIsoSec (String.mk [y1, y2, y3, y4, '-', o1, o2, '-', d1, d2,
      'T', p1, p2, i1, i2, s1, s2, 'Z'])
      = some ⟨charsToNat [y1, y2, y3, y4], charsToNat [o1, o2], charsToNat [d1, d2],
              charsToNat [p1, p2], charsToNat [i1, i2], charsToNat [s1, s2], 0⟩ := by
  have h4 := charsToNat_lt [y1, y2, y3, y4] (by
    intro c hc
    simp only [List.mem_cons, List.not_mem_nil, or_false] at hc
    rcases hc with rfl | rfl | rfl | rfl <;> assumption)
  norm_num at h4
  have hcond : 1 ≤ charsToNat [y1, y2, y3, y4] ∧ charsToNat [y1, y2, y3, y4] ≤ 9999
      ∧ 1 ≤ charsToNat [o1, o2] ∧ charsToNat [o1, o2] ≤ 12
      ∧ 1 ≤ charsToNat [d1, d2]
      ∧ charsToNat [d1, d2] ≤ daysInMonth (charsToNat [y1, y2, y3, y4]) (charsToNat [o1, o2])
      ∧ charsToNat [p1, p2] ≤ 23 ∧ charsToNat [i1, i2] ≤ 59 ∧ charsToNat [s1, s2] ≤ 59
      ∧ (0 : Nat) ≤ 999999 :=
    ⟨hy, by omega, hoa, hob, hda, hdb, hp, hi, hs, by norm_num⟩
  simp [strptimeIsoSec, string_data_mk, rdDigits, rdChar, mkDatetime, hcond,
    hy1, hy2, hy3, hy4, ho1, ho2, hd1, hd2, hp1, hp2, hi1, hi2, hs1, hs2]

/-- The millisecond format parses a valid millisecond payload to the
datetime of its literal digit fields, with the fraction scaled to
microseconds. -/
theorem strptimeIsoMs_some (y1 y2 y3 y4 o1 o2 d1 d2 p1 p2 i1 i2 s1 s2 f1 f2 f3 : Char)
    (hy1 : y1.isDigit = true) (hy2 : y2.isDigit = true)
    (hy3 : y3.isDigit = true) (hy4 : y4.isDigit = true)
    (ho1 : o1.isDigit = true) (ho2 : o2.isDigit = true)
    (hd1 : d1.isDigit = true) (hd2 : d2.isDigit = true)
    (hp1 : p1.isDigit = true) (hp2 : p2.isDigit = true)
    (hi1 : i1.isDigit = true) (hi2 : i2.isDigit = true)
    (hs1 : s1.isDigit = true) (hs2 : s2.isDigit = true)
    (hf1 : f1.isDigit = true) (hf2 : f2.isDigit = true) (hf3 : f3.isDigit = true)
    (hy : 1 ≤ charsToNat [y1, y2, y3, y4])
    (hoa : 1 ≤ charsToNat [o1, o2]) (hob : charsToNat [o1, o2] ≤ 12)
    (hda : 1 ≤ charsToNat [d1, d2])
    (hdb : charsToNat [d1, d2] ≤ daysInMonth (charsToNat [y1, y2, y3, y4]) (charsToNat [o1, o2]))
    (hp : charsToNat [p1, p2] ≤ 23) (hi : charsToNat [i1, i2] ≤ 59)
    (hs : charsToNat [s1, s2] ≤ 59) :
    strptimeIsoMs (String.mk [y1, y2, y3, y4, '-', o1, o2, '-', d1, d2,
      'T', p1, p2, i1, i2, s1, s2, '.', f1, f2, f3, 'Z'])
      = some ⟨charsToNat [y1, y2, y3, y4], charsToNat [o1, o2], charsToNat [d1, d2],
              charsToNat [p1, p2], charsToNat [i1, i2], charsToNat [s1, s2],
              charsToNat [f1, f2, f3] * 1000⟩ := by
  have h4 := charsToNat_lt [y1, y2, y3, y4] (by
    intro c hc
    simp only [List.mem_cons, List.not_mem_nil, or_false] at hc
    rcases hc with rfl | rfl | rfl | rfl <;> assumption)
  norm_num at h4
  have hf := charsToNat_lt [f1, f2, f3] (by
    intro c hc
    simp only [List.mem_cons, List.not_mem_nil, or_false] at hc
    rcases hc with rfl | rfl | rfl <;> assumption)
  norm_num at hf
  have hcond : 1 ≤ charsToNat [y1, y2, y3, y4] ∧ charsToNat [y1, y2, y3, y4] ≤ 9999
      ∧ 1 ≤ charsToNat [o1, o2] ∧ charsToNat [o1, o2] ≤ 12
      ∧ 1 ≤ charsToNat [d1, d2]
      ∧ charsToNat [d1, d2] ≤ daysInMonth (charsToNat [y1, y2, y3, y4]) (charsToNat [o1, o2])
      ∧ charsToNat [p1, p2] ≤ 23 ∧ charsToNat [i1, i2] ≤ 59 ∧ charsToNat [s1, s2] ≤ 59
      ∧ charsToNat [f1, f2, f3] * 1000 ≤ 999999 :=
    ⟨hy, by omega, hoa, hob, hda, hdb, hp, hi, hs, by omega⟩
  simp [strptimeIsoMs, string_data_mk, rdDigits, rdChar, mkDatetime, hcond,
    hy1, hy2, hy3, hy4, ho1, ho2, hd1, hd2, hp1, hp2, hi1, hi2, hs1, hs2, hf1, hf2, hf3]

/-- C7: every file name matching the ISO-equals grammar whose captured
compact timestamp is a valid calendar value classifies as Matched with
the timestamp parsed from that literal string (fields are exactly the
literal digit groups, UTC-naive).  The first conjunct covers every
grammar-matching name through the captured group; the second and third
construct the name from an arbitrary prefix, digit characters and
extension, for second precision and millisecond precision respectively
— the millisecond grammar is the one that fires on a payload carrying a
fraction (its parse, tried first, populates the microsecond field),
while a fraction-free payload falls through to the second-precision
grammar only after the millisecond grammar has rejected it. -/
theorem iso_eq_valid_timestamp :
    (∀ fname ts dt, pattern_iso_eq fname = some ts → parseIsoTs ts = some dt →
      classify fname = .matched ts dt) ∧
    (∀ (u : String) (y1 y2 y3 y4 o1 o2 d1 d2 p1 p2 i1 i2 s1 s2 : Char) (ext : List Char),
      y1.isDigit = true → y2.isDigit = true → y3.isDigit = true → y4.isDigit = true →
      o1.isDigit = true → o2.isDigit = true → d1.isDigit = true → d2.isDigit = true →
      p1.isDigit = true → p2.isDigit = true → i1.isDigit = true → i2.isDigit = true →
      s1.isDigit = true → s2.isDigit = true →
      ext ≠ [] → '=' ∉ ext →
      1 ≤ charsToNat [y1, y2, y3, y4] →
      1 ≤ charsToNat [o1, o2] → charsToNat [o1, o2] ≤ 12 →
      1 ≤ charsToNat [d1, d2] →
      charsToNat [d1, d2] ≤ daysInMonth (charsToNat [y1, y2, y3, y4]) (charsToNat [o1, o2]) →
      charsToNat [p1, p2] ≤ 23 → charsToNat [i1, i2] ≤ 59 → charsToNat [s1, s2] ≤ 59 →
      classify (u ++ String.mk ('=' :: '_' :: '=' :: y1 :: y2 :: y3 :: y4 :: '-' :: o1 :: o2 ::
          '-' :: d1 :: d2 :: 'T' :: p1 :: p2 :: i1 :: i2 :: s1 :: s2 :: 'Z' :: '.' :: ext))
        = .matched
            (String.mk [y1, y2, y3, y4, '-', o1, o2, '-', d1, d2, 'T', p1, p2, i1, i2, s1, s2, 'Z'])
            ⟨charsToNat [y1, y2, y3, y4], charsToNat [o1, o2], charsToNat [d1, d2],
             charsToNat [p1, p2], charsToNat [i1, i2], charsToNat [s1, s2], 0⟩) ∧
    (∀ (u : String) (y1 y2 y3 y4 o1 o2 d1 d2 p1 p2 i1 i2 s1 s2 f1 f2 f3 : Char)
        (ext : List Char),
      y1.isDigit = true → y2.isDigit = true → y3.isDigit = true → y4.isDigit = true →
      o1.isDigit = true → o2.isDigit = true → d1.isDigit = true → d2.isDigit = true →
      p1.isDigit = true → p2.isDigit = true → i1.isDigit = true → i2.isDigit = true →
      s1.isDigit = true → s2.isDigit = true →
      f1.isDigit = true → f2.isDigit = true → f3.isDigit = true →
      ext ≠ [] → '=' ∉ ext →
      1 ≤ charsToNat [y1, y2, y3, y4] →
      1 ≤ charsToNat [o1, o2] → charsToNat [o1, o2] ≤ 12 →
      1 ≤ charsToNat [d1, d2] →
      charsToNat [d1, d2] ≤ daysInMonth (charsToNat [y1, y2, y3, y4]) (charsToNat [o1, o2]) →
      charsToNat [p1, p2] ≤ 23 → charsToNat [i1, i2] ≤ 59 → charsToNat [s1, s2] ≤ 59 →
      classify (u ++ String.mk ('=' :: '_' :: '=' :: y1 :: y2 :: y3 :: y4 :: '-' :: o1 :: o2 ::
          '-' :: d1 :: d2 :: 'T' :: p1 :: p2 :: i1 :: i2 :: s1 :: s2 ::
          '.' :: f1 :: f2 :: f3 :: 'Z' :: '.' :: ext))
        = .matched
            (String.mk [y1, y2, y3, y4, '-', o1, o2, '-', d1, d2, 'T', p1, p2, i1, i2, s1, s2,
              '.', f1, f2, f3, 'Z'])
            ⟨charsToNat [y1, y2, y3, y4], charsToNat [o1, o2], charsToNat [d1, d2],
             charsToNat [p1, p2], charsToNat [i1, i2], charsToNat [s1, s2],
             charsToNat [f1, f2, f3] * 1000⟩) := by
  refine ⟨?_, ?_, ?_⟩
  · intro fname ts dt h1 h2
    simp [classify, h1, h2]
  · intro u y1 y2 y3 y4 o1 o2 d1 d2 p1 p2 i1 i2 s1 s2 ext
    intro hy1 hy2 hy3 hy4 ho1 ho2 hd1 hd2 hp1 hp2 hi1 hi2 hs1 hs2
    intro hext hne hy hoa hob hda hdb hp hi hs
    have hnm : '=' ∉ (y1 :: y2 :: y3 :: y4 :: '-' :: o1 :: o2 :: '-' :: d1 :: d2 ::
        'T' :: p1 :: p2 :: i1 :: i2 :: s1 :: s2 :: 'Z' :: '.' :: ext) := by
      intro hmem
      simp only [List.mem_cons] at hmem
      rcases hmem with h|h|h|h|h|h|h|h|h|h|h|h|h|h|h|h|h|h|h|h <;>
        first
          | exact hne h
          | exact absurd h (by decide)
          | exact digit_ne (by assumption) (by decide) h.symm
    have htail := isoTail_sec y1 y2 y3 y4 o1 o2 d1 d2 p1 p2 i1 i2 s1 s2 ext
      hy1 hy2 hy3 hy4 ho1 ho2 hd1 hd2 hp1 hp2 hi1 hi2 hs1 hs2 hext
    have hscan := isoScan_eq_head _ _ y1 _ htail hnm rfl hy1
    have hpat : pattern_iso_eq (u ++ String.mk ('=' :: '_' :: '=' :: y1 :: y2 :: y3 :: y4 ::
        '-' :: o1 :: o2 :: '-' :: d1 :: d2 :: 'T' :: p1 :: p2 :: i1 :: i2 :: s1 :: s2 ::
        'Z' :: '.' :: ext))
        = some (String.mk [y1, y2, y3, y4, '-', o1, o2, '-', d1, d2,
            'T', p1, p2, i1, i2, s1, s2, 'Z']) := by
      simp only [pattern_iso_eq, string_data_append, string_data_mk]
      rw [isoScan_append_some _ u.data _ _ hscan]
      rfl
    have hparse : parseIsoTs (String.mk [y1, y2, y3, y4, '-', o1, o2, '-', d1, d2,
        'T', p1, p2, i1, i2, s1, s2, 'Z'])
        = some ⟨charsToNat [y1, y2, y3, y4], charsToNat [o1, o2], charsToNat [d1, d2],
                charsToNat [p1, p2], charsToNat [i1, i2], charsToNat [s1, s2], 0⟩ := by
      simp only [parseIsoTs]
      rw [strptimeIsoMs_sec_none y1 y2 y3 y4 o1 o2 d1 d2 p1 p2 i1 i2 s1 s2
        hy1 hy2 hy3 hy4 ho1 ho2 hd1 hd2 hp1 hp2 hi1 hi2 hs1 hs2]
      exact strptimeIsoSec_some y1 y2 y3 y4 o1 o2 d1 d2 p1 p2 i1 i2 s1 s2
        hy1 hy2 hy3 hy4 ho1 ho2 hd1 hd2 hp1 hp2 hi1 hi2 hs1 hs2
        hy hoa hob hda hdb hp hi hs
    simp [classify, hpat, hparse]
  · intro u y1 y2 y3 y4 o1 o2 d1 d2 p1 p2 i1 i2 s1 s2 f1 f2 f3 ext
    intro hy1 hy2 hy3 hy4 ho1 ho2 hd1 hd2 hp1 hp2 hi1 hi2 hs1 hs2 hf1 hf2 hf3
    intro hext hne hy hoa hob hda hdb hp hi hs
    have hnm : '=' ∉ (y1 :: y2 :: y3 :: y4 :: '-' :: o1 :: o2 :: '-' :: d1 :: d2 ::
        'T' :: p1 :: p2 :: i1 :: i2 :: s1 :: s2 :: '.' :: f1 :: f2 :: f3 :: 'Z' :: '.' :: ext) := by
      intro hmem
      simp only [List.mem_cons] at hmem
      rcases hmem with h|h|h|h|h|h|h|h|h|h|h|h|h|h|h|h|h|h|h|h|h|h|h|h <;>
        first
          | exact hne h
          | exact absurd h (by decide)
          | exact digit_ne (by assumption) (by decide) h.symm
    have htail := isoTail_ms y1 y2 y3 y4 o1 o2 d1 d2 p1 p2 i1 i2 s1 s2 f1 f2 f3 ext
      hy1 hy2 hy3 hy4 ho1 ho2 hd1 hd2 hp1 hp2 hi1 hi2 hs1 hs2 hf1 hf2 hf3 hext
    have hscan := isoScan_eq_head _ _ y1 _ htail hnm rfl hy1
    have hpat : pattern_iso_eq (u ++ String.mk ('=' :: '_' :: '=' :: y1 :: y2 :: y3 :: y4 ::
        '-' :: o1 :: o2 :: '-' :: d1 :: d2 :: 'T' :: p1 :: p2 :: i1 :: i2 :: s1 :: s2 ::
        '.' :: f1 :: f2 :: f3 :: 'Z' :: '.' :: ext))
        = some (String.mk [y1, y2, y3, y4, '-', o1, o2, '-', d1, d2,
            'T', p1, p2, i1, i2, s1, s2, '.', f1, f2, f3, 'Z']) := by
      simp only [pattern_iso_eq, string_data_append, string_data_mk]
      rw [isoScan_append_some _ u.data _ _ hscan]
      rfl
    have hparse : parseIsoTs (String.mk [y1, y2, y3, y4, '-', o1, o2, '-', d1, d2,
        'T', p1, p2, i1, i2, s1, s2, '.', f1, f2, f3, 'Z'])
        = some ⟨charsToNat [y1, y2, y3, y4], charsToNat [o1, o2], charsToNat [d1, d2],
                charsToNat [p1, p2], charsToNat [i1, i2], charsToNat [s1, s2],
                charsToNat [f1, f2, f3] * 1000⟩ := by
      simp only [parseIsoTs]
      rw [strptimeIsoMs_some y1 y2 y3 y4 o1 o2 d1 d2 p1 p2 i1 i2 s1 s2 f1 f2 f3
        hy1 hy2 hy3 hy4 ho1 ho2 hd1 hd2 hp1 hp2 hi1 hi2 hs1 hs2 hf1 hf2 hf3
        hy hoa hob hda hdb hp hi hs]
    simp [classify, hpat, hparse]

/-- Witness for `iso_eq_valid_timestamp`: the second-precision
construction at the concrete name `alice=_=2024-03-05T090000Z.jpg`. -/
theorem iso_eq_valid_timestamp_witness :
    classify "alice=_=2024-03-05T090000Z.jpg"
      = .matched "2024-03-05T090000Z" ⟨2024, 3, 5, 9, 0, 0, 0⟩ := by
  have h := iso_eq_valid_timestamp.2.1 "alice" '2' '0' '2' '4' '0' '3' '0' '5' '0' '9' '0' '0'
    '0' '0' ['j', 'p', 'g'] (by decide) (by decide) (by decide) (by decide) (by decide)
    (by decide) (by decide) (by decide) (by decide) (by decide) (by decide) (by decide)
    (by decide) (by decide) (by decide) (by decide) (by decide) (by decide) (by decide)
    (by decide) (by decide) (by decide) (by decide) (by decide)
  exact h

/-- A name starting with six digits cannot match the Alternate pattern:
its fifth character would have to be a dash. -/
theorem pattern_alt_sixdigit_none (y1 y2 o1 o2 d1 d2 c : Char) (rest : List Char)
    (hy1 : y1.isDigit = true) (hy2 : y2.isDigit = true)
    (ho1 : o1.isDigit = true) (ho2 : o2.isDigit = true)
    (hd1 : d1.isDigit = true) :
    pattern_alt (String.mk (y1 :: y2 :: o1 :: o2 :: d1 :: d2 :: c :: rest)) = none := by
  have hne : d1 ≠ '-' := digit_ne hd1 (by decide)
  simp [pattern_alt, string_data_mk, rdDigits, rdChar, hy1, hy2, ho1, ho2, hne]

/-- The Fallback-space matcher on a six-digit-plus-whitespace name. -/
theorem pattern_fb_space_some (y1 y2 o1 o2 d1 d2 c : Char) (rest : List Char)
    (hy1 : y1.isDigit = true) (hy2 : y2.isDigit = true)
    (ho1 : o1.isDigit = true) (ho2 : o2.isDigit = true)
    (hd1 : d1.isDigit = true) (hd2 : d2.isDigit = true)
    (hc : isPySpace c = true) :
    pattern_fb_space (String.mk (y1 :: y2 :: o1 :: o2 :: d1 :: d2 :: c :: rest))
      = some (String.mk [y1, y2], String.mk [o1, o2], String.mk [d1, d2]) := by
  simp [pattern_fb_space, string_data_mk, rdDigits, rdChar,
    hy1, hy2, ho1, ho2, hd1, hd2, hc]

/-- The Fallback-space matcher rejects a dash separator. -/
theorem pattern_fb_space_dash_none (y1 y2 o1 o2 d1 d2 : Char) (rest : List Char)
    (hy1 : y1.isDigit = true) (hy2 : y2.isDigit = true)
    (ho1 : o1.isDigit = true) (ho2 : o2.isDigit = true)
    (hd1 : d1.isDigit = true) (hd2 : d2.isDigit = true) :
    pattern_fb_space (String.mk (y1 :: y2 :: o1 :: o2 :: d1 :: d2 :: '-' :: rest)) = none := by
  simp [pattern_fb_space, string_data_mk, rdDigits, rdChar,
    hy1, hy2, ho1, ho2, hd1, hd2, isPySpace]

/-- The Fallback-dash matcher on a six-digit-plus-dash name. -/
theorem pattern_fb_dash_some (y1 y2 o1 o2 d1 d2 : Char) (rest : List Char)
    (hy1 : y1.isDigit = true) (hy2 : y2.isDigit = true)
    (ho1 : o1.isDigit = true) (ho2 : o2.isDigit = true)
    (hd1 : d1.isDigit = true) (hd2 : d2.isDigit = true) :
    pattern_fb_dash (String.mk (y1 :: y2 :: o1 :: o2 :: d1 :: d2 :: '-' :: rest))
      = some (String.mk [y1, y2], String.mk [o1, o2], String.mk [d1, d2]) := by
  simp [pattern_fb_dash, string_data_mk, rdDigits, rdChar,
    hy1, hy2, ho1, ho2, hd1, hd2]

/-- The fallback datetime construction on valid two-digit fields:
the year is the fixed offset `2000 + YY`. -/
theorem fbDatetime_some (y1 y2 o1 o2 d1 d2 : Char)
    (hy1 : y1.isDigit = true) (hy2 : y2.isDigit = true)
    (_ho1 : o1.isDigit = true) (_ho2 : o2.isDigit = true)
    (_hd1 : d1.isDigit = true) (_hd2 : d2.isDigit = true)
    (hoa : 1 ≤ charsToNat [o1, o2]) (hob : charsToNat [o1, o2] ≤ 12)
    (hda : 1 ≤ charsToNat [d1, d2])
    (hdb : charsToNat [d1, d2] ≤ daysInMonth (2000 + charsToNat [y1, y2]) (charsToNat [o1, o2])) :
    fbDatetime (String.mk [y1, y2]) (String.mk [o1, o2]) (String.mk [d1, d2])
      = some (toString (2000 + charsToNat [y1, y2]) ++ "-" ++ String.mk [o1, o2]
                ++ "-" ++ String.mk [d1, d2],
              ⟨2000 + charsToNat [y1, y2], charsToNat [o1, o2], charsToNat [d1, d2],
               0, 0, 0, 0⟩) := by
  have h2 := charsToNat_lt [y1, y2] (by
    intro x hx
    simp only [List.mem_cons, List.not_mem_nil, or_false] at hx
    rcases hx with rfl | rfl <;> assumption)
  norm_num at h2
  have hcond : 1 ≤ 2000 + charsToNat [y1, y2] ∧ 2000 + charsToNat [y1, y2] ≤ 9999
      ∧ 1 ≤ charsToNat [o1, o2] ∧ charsToNat [o1, o2] ≤ 12
      ∧ 1 ≤ charsToNat [d1, d2]
      ∧ charsToNat [d1, d2] ≤ daysInMonth (2000 + charsToNat [y1, y2]) (charsToNat [o1, o2])
      ∧ (0 : Nat) ≤ 23 ∧ (0 : Nat) ≤ 59 ∧ (0 : Nat) ≤ 59 ∧ (0 : Nat) ≤ 999999 :=
    ⟨by omega, by omega, hoa, hob, hda, hdb, by norm_num, by norm_num, by norm_num, by norm_num⟩
  simp [fbDatetime, string_data_mk, charsToNat_twenty, mkDatetime, hcond]

/-- C8 (amended): for a name of six digits `YYMMDD` plus the required
separator, provided no higher-priority matcher matches the whole name
(the two ISO matchers can fire on payloads appearing later in the name;
the Alternate matcher is structurally impossible and needs no
hypothesis) and `MM`/`DD` form a valid calendar date in year
`2000 + YY`, classification is Matched with year exactly `2000 + YY` —
a fixed offset with no century windowing — at midnight.  The final
conjunct exhibits `YY = 99` yielding year `2099`. -/
theorem fb_year_fixed_offset :
    (∀ (y1 y2 o1 o2 d1 d2 c : Char) (rest : List Char),
      y1.isDigit = true → y2.isDigit = true → o1.isDigit = true → o2.isDigit = true →
      d1.isDigit = true → d2.isDigit = true → isPySpace c = true →
      pattern_iso_eq (String.mk (y1 :: y2 :: o1 :: o2 :: d1 :: d2 :: c :: rest)) = none →
      pattern_iso_us (String.mk (y1 :: y2 :: o1 :: o2 :: d1 :: d2 :: c :: rest)) = none →
      1 ≤ charsToNat [o1, o2] → charsToNat [o1, o2] ≤ 12 →
      1 ≤ charsToNat [d1, d2] →
      charsToNat [d1, d2] ≤ daysInMonth (2000 + charsToNat [y1, y2]) (charsToNat [o1, o2]) →
      classify (String.mk (y1 :: y2 :: o1 :: o2 :: d1 :: d2 :: c :: rest))
        = .matched (toString (2000 + charsToNat [y1, y2]) ++ "-" ++ String.mk [o1, o2]
              ++ "-" ++ String.mk [d1, d2])
            ⟨2000 + charsToNat [y1, y2], charsToNat [o1, o2], charsToNat [d1, d2],
             0, 0, 0, 0⟩) ∧
    (∀ (y1 y2 o1 o2 d1 d2 : Char) (rest : List Char),
      y1.isDigit = true → y2.isDigit = true → o1.isDigit = true → o2.isDigit = true →
      d1.isDigit = true → d2.isDigit = true →
      pattern_iso_eq (String.mk (y1 :: y2 :: o1 :: o2 :: d1 :: d2 :: '-' :: rest)) = none →
      pattern_iso_us (String.mk (y1 :: y2 :: o1 :: o2 :: d1 :: d2 :: '-' :: rest)) = none →
      1 ≤ charsToNat [o1, o2] → charsToNat [o1, o2] ≤ 12 →
      1 ≤ charsToNat [d1, d2] →
      charsToNat [d1, d2] ≤ daysInMonth (2000 + charsToNat [y1, y2]) (charsToNat [o1, o2]) →
      classify (String.mk (y1 :: y2 :: o1 :: o2 :: d1 :: d2 :: '-' :: rest))
        = .matched (toString (2000 + charsToNat [y1, y2]) ++ "-" ++ String.mk [o1, o2]
              ++ "-" ++ String.mk [d1, d2])
            ⟨2000 + charsToNat [y1, y2], charsToNat [o1, o2], charsToNat [d1, d2],
             0, 0, 0, 0⟩) ∧
    classify "991231 holiday.jpg" = .matched "2099-12-31" ⟨2099, 12, 31, 0, 0, 0, 0⟩ := by
  refine ⟨?_, ?_, by decide⟩
  · intro y1 y2 o1 o2 d1 d2 c rest hy1 hy2 ho1 ho2 hd1 hd2 hc hiso1 hiso2 hoa hob hda hdb
    have halt := pattern_alt_sixdigit_none y1 y2 o1 o2 d1 d2 c rest hy1 hy2 ho1 ho2 hd1
    have hfb := pattern_fb_space_some y1 y2 o1 o2 d1 d2 c rest hy1 hy2 ho1 ho2 hd1 hd2 hc
    have hdt := fbDatetime_some y1 y2 o1 o2 d1 d2 hy1 hy2 ho1 ho2 hd1 hd2 hoa hob hda hdb
    simp [classify, hiso1, hiso2, halt, hfb, hdt]
  · intro y1 y2 o1 o2 d1 d2 rest hy1 hy2 ho1 ho2 hd1 hd2 hiso1 hiso2 hoa hob hda hdb
    have halt := pattern_alt_sixdigit_none y1 y2 o1 o2 d1 d2 '-' rest hy1 hy2 ho1 ho2 hd1
    have hfbs := pattern_fb_space_dash_none y1 y2 o1 o2 d1 d2 rest hy1 hy2 ho1 ho2 hd1 hd2
    have hfbd := pattern_fb_dash_some y1 y2 o1 o2 d1 d2 rest hy1 hy2 ho1 ho2 hd1 hd2
    have hdt := fbDatetime_some y1 y2 o1 o2 d1 d2 hy1 hy2 ho1 ho2 hd1 hd2 hoa hob hda hdb
    simp [classify, hiso1, hiso2, halt, hfbs, hfbd, hdt]

/-- Witness for `fb_year_fixed_offset`: the space variant at
`991231 photo.jpg`, showing `YY = 99` gives year `2099`. -/
theorem fb_year_fixed_offset_witness :
    classify "991231 photo.jpg" = .matched "2099-12-31" ⟨2099, 12, 31, 0, 0, 0, 0⟩ := by
  have h := fb_year_fixed_offset.1 '9' '9' '1' '2' '3' '1' ' ' "photo.jpg".data
    (by decide) (by decide) (by decide) (by decide) (by decide) (by decide) (by decide)
    (by decide) (by decide) (by decide) (by decide) (by decide) (by decide)
  exact h

/-- C8 as literally stated is false: `230102 b=_=2024-03-05T090000Z.jpg`
begins with six digits and a space, yet classification extracts year
2024 at 09:00 (the higher-priority ISO-equals matcher fires on the later
payload), not the claimed `2000 + 23 = 2023` at midnight; and
`999999 x.jpg` begins with six digits and a space but extracts no
timestamp at all (YYMMDD parse failure), rather than a year-2099 value. -/
theorem fb_prefix_counterexample :
    "230102 b=_=2024-03-05T090000Z.jpg".data.take 7 = ['2', '3', '0', '1', '0', '2', ' '] ∧
    isPySpace ' ' = true ∧
    classify "230102 b=_=2024-03-05T090000Z.jpg"
      = .matched "2024-03-05T090000Z" ⟨2024, 3, 5, 9, 0, 0, 0⟩ ∧
    extractedYear (classify "230102 b=_=2024-03-05T090000Z.jpg") = some 2024 ∧
    2024 ≠ 2000 + 23 ∧
    "999999 x.jpg".data.take 7 = ['9', '9', '9', '9', '9', '9', ' '] ∧
    extractedYear (classify "999999 x.jpg") = none ∧
    classify "999999 x.jpg" = .failed "Fallback1 YYMMDD parse error" := by
  refine ⟨by decide, by decide, by decide, by decide, by decide, by decide, by decide, by decide⟩

/-! ### File-system lemmas -/

theorem fsLookup_fsErase_self (fs : FS) (p : String) : fsLookup (fsErase fs p) p = none := by
  induction fs with
  | nil => simp [fsErase, fsLookup]
  | cons e rest ih =>
    by_cases h : e.1 = p
    · simp [fsErase, h, ih]
    · simp [fsErase, fsLookup, h, ih]

theorem fsLookup_fsErase_ne (fs : FS) (p q : String) (h : q ≠ p) :
    fsLookup (fsErase fs p) q = fsLookup fs q := by
  have hpq : p ≠ q := fun e => h e.symm
  induction fs with
  | nil => simp [fsErase]
  | cons e rest ih =>
    by_cases he : e.1 = p
    · have : e.1 ≠ q := by rw [he]; exact hpq
      simp [fsErase, fsLookup, he, this, ih, hpq]
    · by_cases hq : e.1 = q
      · simp [fsErase, fsLookup, he, hq, h]
      · simp [fsErase, fsLookup, he, hq, ih]

theorem fsLookup_fsWrite_self (fs : FS) (p c : String) :
    fsLookup (fsWrite fs p c) p = some c := by
  simp [fsWrite, fsLookup]

theorem fsLookup_fsWrite_ne (fs : FS) (p q c : String) (h : q ≠ p) :
    fsLookup (fsWrite fs p c) q = fsLookup fs q := by
  have : p ≠ q := fun e => h e.symm
  simp [fsWrite, fsLookup, this, fsLookup_fsErase_ne fs p q h]

/-- Any name the counter search returns is unused and is a counter
candidate with index at least the starting one. -/
theorem findManualTarget_spec (fs : FS) (dir stem ext : String) :
    ∀ (fuel k : Nat) (t : String), findManualTarget fs dir stem ext fuel k = some t →
      fsLookup fs t = none ∧ ∃ j, k ≤ j ∧ t = manualCandidate dir stem ext j := by
  intro fuel
  induction fuel with
  | zero => intro k t h; simp [findManualTarget] at h
  | succ n ih =>
    intro k t h
    rw [findManualTarget] at h
    split at h
    · obtain rfl : manualCandidate dir stem ext k = t := by
        simpa using h
      refine ⟨by assumption, k, le_refl k, rfl⟩
    · obtain ⟨h1, j, hj, rfl⟩ := ih (k + 1) t h
      exact ⟨h1, j, by omega, rfl⟩

/-- Inversion of a successful `move_to_manual`: the chosen target was
unused beforehand (never overwrite), it is either the plain name or a
parenthesized-counter name inside the `manual` subdirectory of the
source's parent, and the move is copy-then-delete of the source. -/
theorem move_to_manual_ok (env : Env) (fs : FS) (fpath t : String) (fs' : FS) (evs : List Ev)
    (h : move_to_manual env fs fpath = (.ok (t, fs'), evs)) :
    fsLookup fs t = none ∧
    (t = pathJoin (pathJoin (dirName fpath) "manual") (baseName fpath) ∨
      ∃ k, 1 ≤ k ∧ t = manualCandidate (pathJoin (dirName fpath) "manual")
        (splitext (baseName fpath)).1 (splitext (baseName fpath)).2 k) ∧
    (∃ c, fsLookup fs fpath = some c ∧ fs' = fsErase (fsWrite fs t c) fpath) ∧
    evs = [.movedTo .manual t] := by
  by_cases hmk : env.mkdirFail (pathJoin (dirName fpath) "manual") = true
  · simp [move_to_manual, hmk] at h
  · by_cases hfree :
        fsLookup fs (pathJoin (pathJoin (dirName fpath) "manual") (baseName fpath)) = none
    · simp only [move_to_manual, hmk, Bool.false_eq_true, if_false, hfree, if_true] at h
      cases hsrc : fsLookup fs fpath with
      | none => simp [hsrc] at h
      | some c =>
        simp only [hsrc] at h
        by_cases hsame : pathJoin (pathJoin (dirName fpath) "manual") (baseName fpath) = fpath
        · simp [hsame] at h
        · simp only [hsame, if_false] at h
          obtain ⟨h1, h2, h3⟩ : pathJoin (pathJoin (dirName fpath) "manual") (baseName fpath) = t
              ∧ fsErase (fsWrite fs (pathJoin (pathJoin (dirName fpath) "manual")
                  (baseName fpath)) c) fpath = fs'
              ∧ [Ev.movedTo QCat.manual (pathJoin (pathJoin (dirName fpath) "manual")
                  (baseName fpath))] = evs := by
            simpa [Prod.ext_iff, and_assoc] using h
          subst h1 h2 h3
          exact ⟨hfree, Or.inl rfl, ⟨c, rfl, rfl⟩, rfl⟩
    · simp only [move_to_manual, hmk, Bool.false_eq_true, if_false, hfree] at h
      cases hft : findManualTarget fs (pathJoin (dirName fpath) "manual")
          (splitext (baseName fpath)).1 (splitext (baseName fpath)).2 (fs.length + 1) 1 with
      | none => simp [hft] at h
      | some target =>
        simp only [hft] at h
        cases hsrc : fsLookup fs fpath with
        | none => simp [hsrc] at h
        | some c =>
          simp only [hsrc] at h
          by_cases hsame : target = fpath
          · simp [hsame] at h
          · simp only [hsame, if_false] at h
            obtain ⟨h1, h2, h3⟩ : target = t
                ∧ fsErase (fsWrite fs target c) fpath = fs'
                ∧ [Ev.movedTo QCat.manual target] = evs := by
              simpa [Prod.ext_iff, and_assoc] using h
            subst h1 h2 h3
            obtain ⟨hfree2, j, hj, rfl⟩ := findManualTarget_spec fs _ _ _ _ _ _ hft
            exact ⟨hfree2, Or.inr ⟨j, hj, rfl⟩, ⟨c, rfl, rfl⟩, rfl⟩

/-- C6: Router semantics by category.  Manual: destination is the
`manual` subdirectory of the source's own parent, collisions are
resolved by a parenthesized counter before the extension, the chosen
target is always unused beforehand (never overwrite), and the move is
copy-then-delete.  Riff / Failed: destination is the fixed subtree
`{cwd}/riff` or `{cwd}/failed`; the move succeeds with no condition on
the destination being free and leaves the source's content there
(silent overwrite), again as copy-then-delete.  The final conjunct runs
the Manual router three times on the same base name, producing
`n.ext`, `n (1).ext`, `n (2).ext`. -/
theorem quarantine_move_semantics :
    (∀ (env : Env) (fs : FS) (fpath t : String) (fs' : FS) (evs : List Ev),
      move_to_manual env fs fpath = (.ok (t, fs'), evs) →
      fsLookup fs t = none ∧
      (t = pathJoin (pathJoin (dirName fpath) "manual") (baseName fpath) ∨
        ∃ k, 1 ≤ k ∧ t = manualCandidate (pathJoin (dirName fpath) "manual")
          (splitext (baseName fpath)).1 (splitext (baseName fpath)).2 k) ∧
      (∃ c, fsLookup fs fpath = some c ∧ fs' = fsErase (fsWrite fs t c) fpath)) ∧
    (∀ (env : Env) (fs : FS) (fpath c : String),
      env.mkdirFail (pathJoin env.cwd "riff") = false →
      fsLookup fs fpath = some c →
      pathJoin (pathJoin env.cwd "riff") (baseName fpath) ≠ fpath →
      move_to_riff env fs fpath
        = (.ok (pathJoin (pathJoin env.cwd "riff") (baseName fpath),
            fsErase (fsWrite fs (pathJoin (pathJoin env.cwd "riff") (baseName fpath)) c) fpath),
           [.movedTo .riff (pathJoin (pathJoin env.cwd "riff") (baseName fpath))]) ∧
      fsLookup (fsErase (fsWrite fs (pathJoin (pathJoin env.cwd "riff") (baseName fpath)) c)
          fpath) (pathJoin (pathJoin env.cwd "riff") (baseName fpath)) = some c ∧
      fsLookup (fsErase (fsWrite fs (pathJoin (pathJoin env.cwd "riff") (baseName fpath)) c)
          fpath) fpath = none) ∧
    (∀ (env : Env) (fs : FS) (fpath c : String),
      env.mkdirFail (pathJoin env.cwd "failed") = false →
      fsLookup fs fpath = some c →
      pathJoin (pathJoin env.cwd "failed") (baseName fpath) ≠ fpath →
      move_to_failed env fs fpath
        = (.ok (pathJoin (pathJoin env.cwd "failed") (baseName fpath),
            fsErase (fsWrite fs (pathJoin (pathJoin env.cwd "failed") (baseName fpath)) c) fpath),
           [.movedTo .failed (pathJoin (pathJoin env.cwd "failed") (baseName fpath))]) ∧
      fsLookup (fsErase (fsWrite fs (pathJoin (pathJoin env.cwd "failed") (baseName fpath)) c)
          fpath) (pathJoin (pathJoin env.cwd "failed") (baseName fpath)) = some c ∧
      fsLookup (fsErase (fsWrite fs (pathJoin (pathJoin env.cwd "failed") (baseName fpath)) c)
          fpath) fpath = none) ∧
    ((move_to_manual envOk [("/d/n.ext", "c1")] "/d/n.ext").1
        = .ok ("/d/manual/n.ext", [("/d/manual/n.ext", "c1")]) ∧
     (move_to_manual envOk [("/d/n.ext", "c2"), ("/d/manual/n.ext", "c1")] "/d/n.ext").1
        = .ok ("/d/manual/n (1).ext",
            [("/d/manual/n (1).ext", "c2"), ("/d/manual/n.ext", "c1")]) ∧
     (move_to_manual envOk [("/d/n.ext", "c3"), ("/d/manual/n (1).ext", "c2"),
          ("/d/manual/n.ext", "c1")] "/d/n.ext").1
        = .ok ("/d/manual/n (2).ext",
            [("/d/manual/n (2).ext", "c3"), ("/d/manual/n (1).ext", "c2"),
             ("/d/manual/n.ext", "c1")])) := by
  refine ⟨?_, ?_, ?_, by constructor; rfl; constructor; rfl; rfl⟩
  · intro env fs fpath t fs' evs h
    obtain ⟨h1, h2, h3, _⟩ := move_to_manual_ok env fs fpath t fs' evs h
    exact ⟨h1, h2, h3⟩
  · intro env fs fpath c hmk hsrc hne
    refine ⟨?_, ?_, fsLookup_fsErase_self _ _⟩
    · simp [move_to_riff, safe_move, hmk, hsrc, hne]
    · rw [fsLookup_fsErase_ne _ _ _ hne, fsLookup_fsWrite_self]
  · intro env fs fpath c hmk hsrc hne
    refine ⟨?_, ?_, fsLookup_fsErase_self _ _⟩
    · simp [move_to_failed, safe_move, hmk, hsrc, hne]
    · rw [fsLookup_fsErase_ne _ _ _ hne, fsLookup_fsWrite_self]

/-- Witness for `quarantine_move_semantics`: moving `/a/x.jpg` to the
riff quarantine where `/run/riff/x.jpg` already exists succeeds and
silently replaces the old content with the moved file's. -/
theorem quarantine_move_semantics_witness :
    fsLookup [("/a/x.jpg", "new"), ("/run/riff/x.jpg", "old")] "/run/riff/x.jpg" = some "old" ∧
    move_to_riff envOk [("/a/x.jpg", "new"), ("/run/riff/x.jpg", "old")] "/a/x.jpg"
      = (.ok ("/run/riff/x.jpg", [("/run/riff/x.jpg", "new")]),
         [.movedTo .riff "/run/riff/x.jpg"]) ∧
    fsLookup [("/run/riff/x.jpg", "new")] "/run/riff/x.jpg" = some "new" := by
  refine ⟨by decide, ?_, by decide⟩
  exact (quarantine_move_semantics.2.1 envOk
    [("/a/x.jpg", "new"), ("/run/riff/x.jpg", "old")] "/a/x.jpg" "new"
    (by decide) (by decide) (by decide)).1

/-- Inversion of a successful `safe_move`. -/
theorem safe_move_ok_inv (env : Env) (fs : FS) (src dstDir t : String) (fs' : FS)
    (h : safe_move env fs src dstDir = .ok (t, fs')) :
    t = pathJoin dstDir (baseName src)
      ∧ ∃ c, fsLookup fs src = some c ∧ fs' = fsErase (fsWrite fs t c) src := by
  unfold safe_move at h
  by_cases hmk : env.mkdirFail dstDir = true
  · rw [if_pos hmk] at h
    simp at h
  · rw [if_neg hmk] at h
    cases hsrc : fsLookup fs src with
    | none => rw [hsrc] at h; simp at h
    | some c =>
      rw [hsrc] at h
      dsimp only at h
      by_cases hsame : pathJoin dstDir (baseName src) = src
      · rw [if_pos hsame] at h
        simp at h
      · rw [if_neg hsame] at h
        obtain ⟨h1, h2⟩ : pathJoin dstDir (baseName src) = t
            ∧ fsErase (fsWrite fs (pathJoin dstDir (baseName src)) c) src = fs' := by
          simpa using h
        subst h1 h2
        exact ⟨rfl, c, rfl, rfl⟩

/-- A successful riff move targets the riff subtree and emits exactly
one move event there. -/
theorem move_to_riff_ok_inv (env : Env) (fs : FS) (fpath t : String) (fs' : FS) (evs : List Ev)
    (h : move_to_riff env fs fpath = (.ok (t, fs'), evs)) :
    t = pathJoin (pathJoin env.cwd "riff") (baseName fpath) ∧ evs = [.movedTo .riff t] := by
  unfold move_to_riff at h
  cases hsm : safe_move env fs fpath (pathJoin env.cwd "riff") with
  | error e => rw [hsm] at h; simp at h
  | ok pr =>
    obtain ⟨t0, fs0⟩ := pr
    rw [hsm] at h
    obtain ⟨h1, h2, h3⟩ : t0 = t ∧ fs0 = fs' ∧ [Ev.movedTo QCat.riff t0] = evs := by
      simpa [Prod.ext_iff, and_assoc] using h
    subst h1 h2 h3
    exact ⟨(safe_move_ok_inv env fs fpath _ _ _ hsm).1, rfl⟩

/-- A failed riff move emits no events. -/
theorem move_to_riff_error_inv (env : Env) (fs : FS) (fpath : String) (e : PyErr) (evs : List Ev)
    (h : move_to_riff env fs fpath = (.error e, evs)) : evs = [] := by
  unfold move_to_riff at h
  cases hsm : safe_move env fs fpath (pathJoin env.cwd "riff") with
  | error e2 => rw [hsm] at h; simpa using (congrArg Prod.snd h).symm
  | ok pr =>
    obtain ⟨t0, fs0⟩ := pr
    rw [hsm] at h
    have h1 := congrArg Prod.fst h
    simp at h1

/-- A successful failed-quarantine move targets the failed subtree and
emits exactly one move event there. -/
theorem move_to_failed_ok_inv (env : Env) (fs : FS) (fpath t : String) (fs' : FS) (evs : List Ev)
    (h : move_to_failed env fs fpath = (.ok (t, fs'), evs)) :
    t = pathJoin (pathJoin env.cwd "failed") (baseName fpath) ∧ evs = [.movedTo .failed t] := by
  unfold move_to_failed at h
  cases hsm : safe_move env fs fpath (pathJoin env.cwd "failed") with
  | error e => rw [hsm] at h; simp at h
  | ok pr =>
    obtain ⟨t0, fs0⟩ := pr
    rw [hsm] at h
    obtain ⟨h1, h2, h3⟩ : t0 = t ∧ fs0 = fs' ∧ [Ev.movedTo QCat.failed t0] = evs := by
      simpa [Prod.ext_iff, and_assoc] using h
    subst h1 h2 h3
    exact ⟨(safe_move_ok_inv env fs fpath _ _ _ hsm).1, rfl⟩

/-- A failed failed-quarantine move emits no events. -/
theorem move_to_failed_error_inv (env : Env) (fs : FS) (fpath : String) (e : PyErr)
    (evs : List Ev) (h : move_to_failed env fs fpath = (.error e, evs)) : evs = [] := by
  unfold move_to_failed at h
  cases hsm : safe_move env fs fpath (pathJoin env.cwd "failed") with
  | error e2 => rw [hsm] at h; simpa using (congrArg Prod.snd h).symm
  | ok pr =>
    obtain ⟨t0, fs0⟩ := pr
    rw [hsm] at h
    have h1 := congrArg Prod.fst h
    simp at h1

/-- Shape of one file's event trace: some size-read and tool-run events
at the file's own path, followed by at most one completed move, into the
riff or the failed subtree. -/
theorem process_file_trace (env : Env) (fs : FS) (fpath : String) :
    ∃ pre post : List Ev,
      (process_file env fs fpath).2.2 = pre ++ post ∧
      (∀ e ∈ pre, e = Ev.sizeRead fpath ∨ e = Ev.toolRun fpath) ∧
      (post = [] ∨
       post = [Ev.movedTo QCat.riff (pathJoin (pathJoin env.cwd "riff") (baseName fpath))] ∨
       post = [Ev.movedTo QCat.failed (pathJoin (pathJoin env.cwd "failed") (baseName fpath))]) := by
  unfold process_file
  dsimp only
  split
  · exact ⟨[], [], by simp, by simp, Or.inl rfl⟩
  · split
    · exact ⟨[.sizeRead fpath], [], by simp, by simp, Or.inl rfl⟩
    · split
      · split
        · next moved fs2 evs heq =>
          obtain ⟨ht, hevs⟩ := move_to_failed_ok_inv env fs fpath moved fs2 evs heq
          rw [ht] at hevs
          exact ⟨[.sizeRead fpath], evs, by simp, by simp, Or.inr (Or.inr hevs)⟩
        · next e evs heq =>
          have hevs := move_to_failed_error_inv env fs fpath e evs heq
          exact ⟨[.sizeRead fpath], evs, by simp, by simp, Or.inl hevs⟩
      · split
        · exact ⟨[.sizeRead fpath, .toolRun fpath, .sizeRead fpath], [],
            by simp, by simp, Or.inl rfl⟩
        · split
          · split
            · next moved fs2 evs heq =>
              obtain ⟨ht, hevs⟩ := move_to_riff_ok_inv env _ fpath moved fs2 evs heq
              rw [ht] at hevs
              exact ⟨[.sizeRead fpath, .toolRun fpath, .sizeRead fpath], evs,
                by simp, by simp, Or.inr (Or.inl hevs)⟩
            · next e evs heq =>
              have hevs := move_to_riff_error_inv env _ fpath e evs heq
              exact ⟨[.sizeRead fpath, .toolRun fpath, .sizeRead fpath], evs,
                by simp, by simp, Or.inl hevs⟩
          · split
            · next moved fs2 evs heq =>
              obtain ⟨ht, hevs⟩ := move_to_failed_ok_inv env _ fpath moved fs2 evs heq
              rw [ht] at hevs
              exact ⟨[.sizeRead fpath, .toolRun fpath, .sizeRead fpath], evs,
                by simp, by simp, Or.inr (Or.inr hevs)⟩
            · next e evs heq =>
              have hevs := move_to_failed_error_inv env _ fpath e evs heq
              exact ⟨[.sizeRead fpath, .toolRun fpath, .sizeRead fpath], evs,
                by simp, by simp, Or.inl hevs⟩

/-- C10: per-file processing never routes a file to the Manual
quarantine: every completed move recorded in any processing trace is a
riff or failed move, with the destination in the corresponding fixed
subtree — the Manual router with its counter-based collision policy is
on no control path of `process_file`. -/
theorem process_never_manual :
    ∀ (env : Env) (fs : FS) (fpath : String) (cat : QCat) (dst : String),
      Ev.movedTo cat dst ∈ (process_file env fs fpath).2.2 →
      cat ≠ QCat.manual ∧
      (dst = pathJoin (pathJoin env.cwd "riff") (baseName fpath) ∨
       dst = pathJoin (pathJoin env.cwd "failed") (baseName fpath)) := by
  intro env fs fpath cat dst hmem
  obtain ⟨pre, post, heq, hpre, hpost⟩ := process_file_trace env fs fpath
  rw [heq] at hmem
  rcases List.mem_append.mp hmem with hm | hm
  · rcases hpre _ hm with h | h <;> simp at h
  · rcases hpost with rfl | rfl | rfl
    · simp at hm
    · simp at hm
      obtain ⟨rfl, rfl⟩ := hm
      exact ⟨by decide, Or.inl rfl⟩
    · simp at hm
      obtain ⟨rfl, rfl⟩ := hm
      exact ⟨by decide, Or.inr rfl⟩

/-- Witness for `process_never_manual`: a run whose tool failure routes
the file to the failed quarantine; the recorded category is not Manual. -/
theorem process_never_manual_witness :
    Ev.movedTo QCat.failed "/run/failed/a=_=2024-03-05T090000Z.jpg"
        ∈ (process_file envToolErr [("/data/a=_=2024-03-05T090000Z.jpg", "img")]
            "/data/a=_=2024-03-05T090000Z.jpg").2.2 ∧
    QCat.failed ≠ QCat.manual := by
  have hmem : Ev.movedTo QCat.failed "/run/failed/a=_=2024-03-05T090000Z.jpg"
      ∈ (process_file envToolErr [("/data/a=_=2024-03-05T090000Z.jpg", "img")]
          "/data/a=_=2024-03-05T090000Z.jpg").2.2 := by decide
  exact ⟨hmem, (process_never_manual envToolErr _ _ _ _ hmem).1⟩

/-- No size read follows a completed move in any processing trace. -/
theorem sizeReadAfterMove_process (env : Env) (fs : FS) (fpath : String) :
    sizeReadAfterMove (process_file env fs fpath).2.2 = false := by
  obtain ⟨pre, post, heq, hpre, hpost⟩ := process_file_trace env fs fpath
  rw [heq]
  clear heq
  induction pre with
  | nil =>
    rcases hpost with rfl | rfl | rfl <;> simp [sizeReadAfterMove]
  | cons e p ih =>
    rcases hpre e (List.mem_cons_self e p) with rfl | rfl <;>
      simpa [sizeReadAfterMove] using ih (fun x hx => hpre x (List.mem_cons_of_mem _ hx))

/-- C4 (amended): the size-after value is read best-effort from the
ORIGINAL path, after the tool invocation but before any quarantine move
(no size read ever follows a move, and every size read in a trace is at
the file's own path); when that read fails, the size-before value is
reused so no size delta is spuriously reported (shown for a tool run
after which the file is unreadable at the original path), and when it
succeeds it reports the post-tool size at the original path. -/
theorem size_after_read_semantics :
    (∀ (env : Env) (fs : FS) (fpath : String),
      sizeReadAfterMove (process_file env fs fpath).2.2 = false) ∧
    (∀ (env : Env) (fs : FS) (fpath p : String),
      Ev.sizeRead p ∈ (process_file env fs fpath).2.2 → p = fpath) ∧
    (∀ (env : Env) (fs : FS) (fpath c ts : String) (dt : PyDateTime) (stderr : String),
      fsLookup fs fpath = some c → env.sizeFail fpath = false →
      classify (baseName fpath) = .matched ts dt →
      env.exiftool fpath (exifFormat dt) = (0, stderr, .delete) →
      process_file env fs fpath
        = (.ok ⟨baseName fpath, some ts, "match", some (c.length, c.length)⟩,
           fsErase fs fpath,
           [.sizeRead fpath, .toolRun fpath, .sizeRead fpath])) ∧
    (∀ (env : Env) (fs : FS) (fpath c c2 ts : String) (dt : PyDateTime) (stderr : String),
      fsLookup fs fpath = some c → env.sizeFail fpath = false →
      classify (baseName fpath) = .matched ts dt →
      env.exiftool fpath (exifFormat dt) = (0, stderr, .setContent c2) →
      process_file env fs fpath
        = (.ok ⟨baseName fpath, some ts, "match", some (c.length, c2.length)⟩,
           fsWrite fs fpath c2,
           [.sizeRead fpath, .toolRun fpath, .sizeRead fpath])) := by
  refine ⟨sizeReadAfterMove_process, ?_, ?_, ?_⟩
  · intro env fs fpath p hmem
    obtain ⟨pre, post, heq, hpre, hpost⟩ := process_file_trace env fs fpath
    rw [heq] at hmem
    rcases List.mem_append.mp hmem with hm | hm
    · rcases hpre _ hm with h | h
      · exact (Ev.sizeRead.inj h).symm ▸ rfl
      · simp at h
    · rcases hpost with rfl | rfl | rfl <;> simp at hm
  · intro env fs fpath c ts dt stderr hsrc hsf hcl htool
    simp [process_file, hsrc, readSize, hsf, hcl, htool, fsLookup_fsErase_self]
  · intro env fs fpath c c2 ts dt stderr hsrc hsf hcl htool
    simp [process_file, hsrc, readSize, hsf, hcl, htool, fsLookup_fsWrite_self]

/-- Witness for `size_after_read_semantics`: a matched file deleted by
the tool reports size-after equal to size-before (no spurious delta). -/
theorem size_after_read_semantics_witness :
    process_file envDel [("/data/a=_=2024-03-05T090000Z.jpg", "img")]
        "/data/a=_=2024-03-05T090000Z.jpg"
      = (.ok ⟨"a=_=2024-03-05T090000Z.jpg", some "2024-03-05T090000Z", "match", some (3, 3)⟩,
         [], [.sizeRead "/data/a=_=2024-03-05T090000Z.jpg",
              .toolRun "/data/a=_=2024-03-05T090000Z.jpg",
              .sizeRead "/data/a=_=2024-03-05T090000Z.jpg"]) := by
  have h := size_after_read_semantics.2.2.1 envDel
    [("/data/a=_=2024-03-05T090000Z.jpg", "img")] "/data/a=_=2024-03-05T090000Z.jpg"
    "img" "2024-03-05T090000Z" ⟨2024, 3, 5, 9, 0, 0, 0⟩ ""
    (by decide) (by decide) (by decide) (by decide)
  exact h

/-- C4 as literally stated is false: in this run the file is quarantined
to `/run/failed/...`, yet the complete event trace shows both size reads
happening at the original `/data/...` path, the second one before the
move — the size-after value is never read from the final location. -/
theorem size_after_final_location_counterexample :
    (process_file envToolErr [("/data/a=_=2024-03-05T090000Z.jpg", "img")]
        "/data/a=_=2024-03-05T090000Z.jpg").2.2
      = [.sizeRead "/data/a=_=2024-03-05T090000Z.jpg",
         .toolRun "/data/a=_=2024-03-05T090000Z.jpg",
         .sizeRead "/data/a=_=2024-03-05T090000Z.jpg",
         .movedTo .failed "/run/failed/a=_=2024-03-05T090000Z.jpg"] ∧
    Ev.sizeRead "/run/failed/a=_=2024-03-05T090000Z.jpg"
        ∉ (process_file envToolErr [("/data/a=_=2024-03-05T090000Z.jpg", "img")]
            "/data/a=_=2024-03-05T090000Z.jpg").2.2 ∧
    (process_file envToolErr [("/data/a=_=2024-03-05T090000Z.jpg", "img")]
        "/data/a=_=2024-03-05T090000Z.jpg").1
      = .ok ⟨"a=_=2024-03-05T090000Z.jpg",
          some "Exiftool error: Unknown file type → moved to /run/failed/a=_=2024-03-05T090000Z.jpg",
          "notmatch", some (3, 3)⟩ := by
  refine ⟨by decide, by decide, rfl⟩

/-- C5: exit code 0 is success regardless of stderr content (the stderr
text is universally quantified, so it may even contain the marker): the
file is left in place (no move event, and the path still resolves when
the tool did not delete it) with status `match`.  On non-zero exit, a
stripped stderr containing the tool's container-format marker routes
the file to the riff quarantine and any other stderr routes it to the
failed quarantine, both with status `notmatch` and a diagnostic that
names the new path. -/
theorem tool_exit_routing :
    ∀ (env : Env) (fs : FS) (fpath c ts : String) (dt : PyDateTime)
      (rc : Int) (stderr : String) (eff : ExifEffect),
      fsLookup fs fpath = some c → env.sizeFail fpath = false →
      classify (baseName fpath) = .matched ts dt →
      env.exiftool fpath (exifFormat dt) = (rc, stderr, eff) →
      eff ≠ .delete →
      ((rc = 0 →
        ∃ sa, (process_file env fs fpath).1
            = .ok ⟨baseName fpath, some ts, "match", some (c.length, sa)⟩ ∧
          (∀ cat dst, Ev.movedTo cat dst ∉ (process_file env fs fpath).2.2) ∧
          (fsLookup (process_file env fs fpath).2.1 fpath).isSome = true) ∧
      (rc ≠ 0 → containsSub riffMarker.data (pyStrip stderr).data = true →
        env.mkdirFail (pathJoin env.cwd "riff") = false →
        pathJoin (pathJoin env.cwd "riff") (baseName fpath) ≠ fpath →
        ∃ sa, (process_file env fs fpath).1
            = .ok ⟨baseName fpath,
                some ("RIFF detected → moved to "
                  ++ pathJoin (pathJoin env.cwd "riff") (baseName fpath)),
                "notmatch", some (c.length, sa)⟩ ∧
          Ev.movedTo .riff (pathJoin (pathJoin env.cwd "riff") (baseName fpath))
            ∈ (process_file env fs fpath).2.2) ∧
      (rc ≠ 0 → containsSub riffMarker.data (pyStrip stderr).data = false →
        env.mkdirFail (pathJoin env.cwd "failed") = false →
        pathJoin (pathJoin env.cwd "failed") (baseName fpath) ≠ fpath →
        ∃ sa, (process_file env fs fpath).1
            = .ok ⟨baseName fpath,
                some ("Exiftool error: " ++ pyStrip stderr ++ " → moved to "
                  ++ pathJoin (pathJoin env.cwd "failed") (baseName fpath)),
                "notmatch", some (c.length, sa)⟩ ∧
          Ev.movedTo .failed (pathJoin (pathJoin env.cwd "failed") (baseName fpath))
            ∈ (process_file env fs fpath).2.2)) := by
  intro env fs fpath c ts dt rc stderr eff hsrc hsf hcl htool heff
  refine ⟨?_, ?_, ?_⟩
  · intro hrc
    subst hrc
    cases eff with
    | keep =>
      refine ⟨c.length, ?_, ?_, ?_⟩ <;>
        simp [process_file, hsrc, readSize, hsf, hcl, htool]
    | setContent c2 =>
      refine ⟨c2.length, ?_, ?_, ?_⟩ <;>
        simp [process_file, hsrc, readSize, hsf, hcl, htool, fsLookup_fsWrite_self]
    | delete => exact absurd rfl heff
  · intro hrc hmark hmk hne
    cases eff with
    | keep =>
      refine ⟨c.length, ?_, ?_⟩ <;>
        simp [process_file, hsrc, readSize, hsf, hcl, htool, hrc, hmark,
          move_to_riff, safe_move, hmk, hne]
    | setContent c2 =>
      refine ⟨c2.length, ?_, ?_⟩ <;>
        simp [process_file, hsrc, readSize, hsf, hcl, htool, hrc, hmark,
          move_to_riff, safe_move, hmk, hne, fsLookup_fsWrite_self]
    | delete => exact absurd rfl heff
  · intro hrc hmark hmk hne
    cases eff with
    | keep =>
      refine ⟨c.length, ?_, ?_⟩ <;>
        simp [process_file, hsrc, readSize, hsf, hcl, htool, hrc, hmark,
          move_to_failed, safe_move, hmk, hne]
    | setContent c2 =>
      refine ⟨c2.length, ?_, ?_⟩ <;>
        simp [process_file, hsrc, readSize, hsf, hcl, htool, hrc, hmark,
          move_to_failed, safe_move, hmk, hne, fsLookup_fsWrite_self]
    | delete => exact absurd rfl heff

/-- Witness for `tool_exit_routing`: exit code 0 with the marker text in
stderr still counts as success and performs no quarantine move. -/
theorem tool_exit_routing_witness :
    (process_file envOkNoisy [("/data/a=_=2024-03-05T090000Z.jpg", "img")]
        "/data/a=_=2024-03-05T090000Z.jpg").1
      = .ok ⟨"a=_=2024-03-05T090000Z.jpg", some "2024-03-05T090000Z", "match", some (3, 3)⟩ ∧
    Ev.movedTo QCat.riff "/run/riff/a=_=2024-03-05T090000Z.jpg"
      ∉ (process_file envOkNoisy [("/data/a=_=2024-03-05T090000Z.jpg", "img")]
          "/data/a=_=2024-03-05T090000Z.jpg").2.2 := by
  obtain ⟨sa, h1, h2, h3⟩ := (tool_exit_routing envOkNoisy
    [("/data/a=_=2024-03-05T090000Z.jpg", "img")] "/data/a=_=2024-03-05T090000Z.jpg"
    "img" "2024-03-05T090000Z" ⟨2024, 3, 5, 9, 0, 0, 0⟩ 0
    "Not a valid JPG (looks more like a RIFF)" .keep
    (by decide) (by decide) (by decide) (by decide) (by decide)).1 rfl
  exact ⟨rfl, h2 QCat.riff "/run/riff/a=_=2024-03-05T090000Z.jpg"⟩

/-- C3 (amended): when the path is a regular file but its size cannot be
read before any mutation attempt, processing aborts immediately with the
`error_size_before` status, no mutation (the file system is returned
unchanged and the trace holds only the failed read attempt); in the
driver that status falls into the unknown-status fallback, which writes
`<file> --> Unknown error` to the not-matched log and increments the
NOT-MATCHED counter — not the skipped counter. -/
theorem size_before_unreadable_semantics :
    (∀ (env : Env) (fs : FS) (fpath c : String),
      fsLookup fs fpath = some c → env.sizeFail fpath = true →
      process_file env fs fpath
        = (.ok ⟨baseName fpath, none, "error_size_before", none⟩, fs, [.sizeRead fpath])) ∧
    (∀ (o : Outcome) (logs : Logs) (s : Summary),
      o.status = "error_size_before" → o.sizes = none →
      collectStep o logs s
        = ({ logs with notmatchLog := logs.notmatchLog ++ [o.fname ++ " --> Unknown error"] },
           { s with notmatch := s.notmatch + 1 })) := by
  constructor
  · intro env fs fpath c hsrc hsf
    simp [process_file, hsrc, readSize, hsf]
  · intro o logs s hst hsz
    simp [collectStep, hst, hsz]

/-- Witness for `size_before_unreadable_semantics`: the concrete
unreadable-size run and its driver step. -/
theorem size_before_unreadable_semantics_witness :
    process_file envSizeFail [("/data/a.jpg", "xy")] "/data/a.jpg"
      = (.ok ⟨"a.jpg", none, "error_size_before", none⟩, [("/data/a.jpg", "xy")],
         [.sizeRead "/data/a.jpg"]) ∧
    collectStep ⟨"a.jpg", none, "error_size_before", none⟩ ⟨[], [], []⟩ ⟨1, 0, 0, 0, 0, 0⟩
      = (⟨[], ["a.jpg --> Unknown error"], []⟩, ⟨1, 0, 1, 0, 0, 0⟩) := by
  constructor
  · exact size_before_unreadable_semantics.1 envSizeFail [("/data/a.jpg", "xy")]
      "/data/a.jpg" "xy" (by decide) (by decide)
  · exact size_before_unreadable_semantics.2 ⟨"a.jpg", none, "error_size_before", none⟩
      ⟨[], [], []⟩ ⟨1, 0, 0, 0, 0, 0⟩ rfl rfl

/-- C3 as literally stated is false: in a run whose single file exists
but has an unreadable size, the file is counted in the not-matched
counter (with an `Unknown error` line), and the skipped counter stays at
zero; the no-mutation half does hold (the file system is unchanged). -/
theorem size_before_skipped_counterexample :
    (runMain denvSizeFail).summary.skipped = 0 ∧
    (runMain denvSizeFail).summary.notmatch = 1 ∧
    (runMain denvSizeFail).logs.notmatchLog = ["a.jpg --> Unknown error"] ∧
    (runMain denvSizeFail).fsFinal = denvSizeFail.fs0 := by
  refine ⟨by decide, by decide, by decide, by decide⟩

/-- C1 (amended): an exception raised inside one file's processing is
re-raised in the driver when that file's result is retrieved, which
terminates the collection loop: the run ends with that exception, no
NotMatched/diagnostic entry is recorded for the raising file, and the
results after it are never folded in.  Only ok results before the first
raised exception are collected. -/
theorem worker_error_aborts_collection :
    (∀ (rs1 : List (Except PyErr Outcome)) (e : PyErr) (rs2 : List (Except PyErr Outcome))
        (logs : Logs) (s : Summary),
      (∀ r ∈ rs1, ∃ o, r = .ok o) →
      (collectResults (rs1 ++ .error e :: rs2) logs s).1 = .error e) ∧
    (∀ (e : PyErr) (rs : List (Except PyErr Outcome)) (logs : Logs) (s : Summary),
      collectResults (.error e :: rs) logs s = (.error e, logs, s)) := by
  constructor
  · intro rs1 e rs2 logs s hok
    induction rs1 generalizing logs s with
    | nil => simp [collectResults]
    | cons r rest ih =>
      obtain ⟨o, rfl⟩ := hok r (List.mem_cons_self r rest)
      simp only [List.cons_append, collectResults]
      exact ih _ _ (fun x hx => hok x (List.mem_cons_of_mem _ hx))
  · intro e rs logs s
    rfl

/-- Witness for `worker_error_aborts_collection`: one ok result followed
by a raising one aborts collection with that exception. -/
theorem worker_error_aborts_collection_witness :
    (collectResults [.ok ⟨"f.jpg", none, "skip", none⟩, .error (.srcMissing "/data/g.jpg"),
        .ok ⟨"h.jpg", some "x", "match", none⟩] ⟨[], [], []⟩ ⟨3, 0, 0, 0, 0, 0⟩).1
      = .error (.srcMissing "/data/g.jpg") :=
  worker_error_aborts_collection.1 [.ok ⟨"f.jpg", none, "skip", none⟩]
    (.srcMissing "/data/g.jpg") [.ok ⟨"h.jpg", some "x", "match", none⟩]
    ⟨[], [], []⟩ ⟨3, 0, 0, 0, 0, 0⟩
    (by intro r hr; simp at hr; exact ⟨_, hr⟩)

/-- C1 as literally stated is false: in this two-file run the first
file's quarantine move raises an `OSError` (`os.makedirs` fails), the
exception propagates out of that file's processing and aborts the whole
batch — the run ends with the exception, no NotMatched entry is recorded
for the file, and the second (perfectly valid) file's result is never
recorded either: all three logs stay empty and no counter moves. -/
theorem worker_error_continues_counterexample :
    (runMain denvAbort).outcome = .error (.mkdirFailed "/run/failed") ∧
    (runMain denvAbort).allFiles
      = ["/data/bad.txt", "/data/alice=_=2024-03-05T090000Z.jpg"] ∧
    (runMain denvAbort).logs = ⟨[], [], []⟩ ∧
    (runMain denvAbort).summary = ⟨2, 0, 0, 0, 0, 0⟩ := by
  refine ⟨rfl, by decide, by decide, by decide⟩

/-- Enumeration of one folder: every dispatched path is a direct join of
the folder with a listed entry and is not a directory; every directory
entry contributes its skip line; the skipped count is the number of
directory entries. -/
theorem enumEntries_spec (d : DriverEnv) (folder : String) (entries : List String) :
    (∀ f ∈ (enumEntries d folder entries).1,
      (∃ entry, entry ∈ entries ∧ f = pathJoin folder entry) ∧ d.isdir f = false) ∧
    (∀ entry ∈ entries, d.isdir (pathJoin folder entry) = true →
      (entry ++ " --> skipped directory") ∈ (enumEntries d folder entries).2.2) ∧
    (enumEntries d folder entries).2.1
      = (entries.filter (fun e => d.isdir (pathJoin folder e))).length := by
  induction entries with
  | nil => exact ⟨by simp [enumEntries], by simp, by simp [enumEntries]⟩
  | cons a rest ih =>
    obtain ⟨ih1, ih2, ih3⟩ := ih
    by_cases ha : d.isdir (pathJoin folder a) = true
    · refine ⟨?_, ?_, ?_⟩
      · intro f hf
        simp only [enumEntries, ha, if_true] at hf
        obtain ⟨⟨entry, hmem, rfl⟩, hdir⟩ := ih1 f hf
        exact ⟨⟨entry, List.mem_cons_of_mem a hmem, rfl⟩, hdir⟩
      · intro entry hmem hdir
        simp only [enumEntries, ha, if_true]
        rcases List.mem_cons.mp hmem with rfl | hmem2
        · exact List.mem_cons_self _ _
        · exact List.mem_cons_of_mem _ (ih2 entry hmem2 hdir)
      · simp [enumEntries, ha, List.filter_cons, ih3]
    · refine ⟨?_, ?_, ?_⟩
      · intro f hf
        simp only [enumEntries, ha, if_false] at hf
        rcases List.mem_cons.mp hf with rfl | hf2
        · exact ⟨⟨a, List.mem_cons_self a rest, rfl⟩, by simpa using ha⟩
        · obtain ⟨⟨entry, hmem, rfl⟩, hdir⟩ := ih1 f hf2
          exact ⟨⟨entry, List.mem_cons_of_mem a hmem, rfl⟩, hdir⟩
      · intro entry hmem hdir
        simp only [enumEntries, ha, if_false]
        rcases List.mem_cons.mp hmem with rfl | hmem2
        · exact absurd hdir ha
        · exact ih2 entry hmem2 hdir
      · simp [enumEntries, ha, List.filter_cons, ih3]

theorem enumEntries_notmatch0 (d : DriverEnv) (x : List String) (folder : String)
    (entries : List String) :
    enumEntries { d with notmatch0 := x } folder entries = enumEntries d folder entries := by
  induction entries with
  | nil => rfl
  | cons a rest ih => simp [enumEntries, ih]

theorem enumFolders_notmatch0 (d : DriverEnv) (x : List String) (l : List String) :
    enumFolders { d with notmatch0 := x } l = enumFolders d l := by
  induction l with
  | nil => rfl
  | cons a rest ih => simp [enumFolders, ih, enumEntries_notmatch0]

/-- C9: directory entries found during enumeration are never recursed
into — every dispatched file is a one-level join of a configured input
folder with one of its listed entries and is itself not a directory;
each directory entry is excluded from dispatch, appended to the
not-matched log as a skipped directory during enumeration (after the
prior log content), and counted in the skipped counter of the summary
the run starts with; and the main run then truncates the logs: the final
log files are independent of everything the not-matched log held before
truncation. -/
theorem driver_enumeration_semantics :
    (∀ (d : DriverEnv), ∀ f ∈ (runMain d).allFiles,
      (∃ folder entry, folder ∈ folder_list ∧ d.isdir folder = true ∧
        entry ∈ d.listdir folder ∧ f = pathJoin folder entry) ∧ d.isdir f = false) ∧
    (∀ (d : DriverEnv) (folder : String), folder ∈ folder_list → d.isdir folder = true →
      ∀ entry ∈ d.listdir folder, d.isdir (pathJoin folder entry) = true →
        pathJoin folder entry ∉ (runMain d).allFiles ∧
        (entry ++ " --> skipped directory") ∈ (runMain d).notmatchAfterEnum) ∧
    (∀ (d : DriverEnv),
      (runMain d).notmatchAfterEnum = d.notmatch0 ++ (enumFolders d folder_list).2.2) ∧
    (∀ (d : DriverEnv), d.isdir "/data" = true →
      (runMain d).summaryAtDispatch
        = ⟨(runMain d).allFiles.length, 0, 0,
           ((d.listdir "/data").filter (fun e => d.isdir (pathJoin "/data" e))).length, 0, 0⟩) ∧
    (∀ (d : DriverEnv) (x : List String),
      (runMain { d with notmatch0 := x }).logs = (runMain d).logs ∧
      (runMain { d with notmatch0 := x }).summary = (runMain d).summary) := by
  have hfiles : ∀ d : DriverEnv, (runMain d).allFiles
      = (if d.isdir "/data" = true then
          enumEntries d "/data" (d.listdir "/data") else ([], 0, [])).1 := by
    intro d
    simp [runMain, enumFolders]
  refine ⟨?_, ?_, ?_, ?_, ?_⟩
  · intro d f hf
    rw [hfiles] at hf
    by_cases hdir : d.isdir "/data" = true
    · rw [if_pos hdir] at hf
      obtain ⟨⟨entry, hmem, rfl⟩, hnd⟩ := (enumEntries_spec d "/data" (d.listdir "/data")).1 f hf
      exact ⟨⟨"/data", entry, by simp [folder_list], hdir, hmem, rfl⟩, hnd⟩
    · rw [if_neg hdir] at hf
      simp at hf
  · intro d folder hfol hdir entry hmem hedir
    have hfol2 : folder = "/data" := by simpa [folder_list] using hfol
    subst hfol2
    constructor
    · intro hcontra
      rw [hfiles, if_pos hdir] at hcontra
      obtain ⟨_, hnd⟩ := (enumEntries_spec d "/data" (d.listdir "/data")).1 _ hcontra
      rw [hedir] at hnd
      simp at hnd
    · have hline := (enumEntries_spec d "/data" (d.listdir "/data")).2.1 entry hmem hedir
      simp [runMain, enumFolders, hdir]
      exact Or.inr hline
  · intro d
    rfl
  · intro d hdir
    have hsk := (enumEntries_spec d "/data" (d.listdir "/data")).2.2
    simp [runMain, enumFolders, hdir, hsk]
  · intro d x
    constructor <;> simp [runMain, enumFolders_notmatch0]

/-- Witness for `driver_enumeration_semantics`: in the concrete run with
an `archive` subdirectory, the directory is excluded from dispatch and
its skip line is appended after the stale log content; truncation then
makes the final logs those of the processed file alone. -/
theorem driver_enumeration_semantics_witness :
    "/data/archive" ∉ (runMain denvDirs).allFiles ∧
    ("archive --> skipped directory") ∈ (runMain denvDirs).notmatchAfterEnum ∧
    (runMain denvDirs).notmatchAfterEnum = ["stale line", "archive --> skipped directory"] ∧
    (runMain denvDirs).summaryAtDispatch = ⟨1, 0, 0, 1, 0, 0⟩ ∧
    (runMain denvDirs).logs = ⟨["alice=_=2024-03-05T090000Z.jpg --> 2024-03-05T090000Z"], [], []⟩ := by
  obtain ⟨h1, h2⟩ := driver_enumeration_semantics.2.1 denvDirs "/data"
    (by simp [folder_list]) (by decide) "archive" (by decide) (by decide)
  exact ⟨h1, h2, by decide, by decide, by decide⟩
